import Mathlib

/-!
MuscleMetabolicPowerProbeUmberger2003: a shallow embedding of `OpenSim/Simulation/Model/MuscleMetabolicPowerProbeUmberger2003.cpp`
and theorems about it.

Conventions of the embedding.

* A C++ `double` is an exact rational number. Rounding, infinities and not-a-number
  values are not represented; a division by zero yields `0` (the convention of `ℚ`),
  so a theorem whose truth depends on a quotient assumes the divisor nonzero.
* `pow` of the C math library is not part of the translation unit. Every function that
  uses it takes it as its first argument, and a theorem that needs a value of `pow`
  states it as a hypothesis.
* `Model` is the model seen at the state `s` handed to `computeProbeInputs`: every
  muscle carries the values its accessors return at `s`, and `systemMass` is
  `calcSystemMass(s)`.
* Text written to `cout` is a list of `Warning` values (the time stamp of a message is
  dropped). A thrown `Exception` is a value of the type `Exception`; its constructor tells
  which `throw` statement raised it.
* `A`, `Vmax_slowtwitch`, `Vmax_fasttwitch`, `tmp_slowTwitch` and `tmp_fastTwitch` restate
  locals of `computeProbeInputs` as functions of the values they are computed from, so
  that theorems can name them; the theorems relate them to what `loopBody` stores.
* The namespace `IEEE` holds what the rational scalars cannot express and three claims
  need: `IEEE.Double` and `IEEE.checkValidMetabolicMuscle` repeat the validation over
  doubles with the infinities and not-a-number, whose comparisons are false at
  not-a-number; `IEEE.fadd` is the addition of two finite doubles, rounded to the nearest
  double with ties to even, and `IEEE.Edot`, `IEEE.sum` and `IEEE.EdotTotal` are the three
  places where `computeProbeInputs` adds, in the order the code adds.
* The locals `fiber_force_passive`, `fiber_force_total`, `slow_twitch_excitation`,
  `fast_twitch_excitation`, `A_rel` and `B_rel` and the `debug` block of the source do not
  reach the result or `cout` and are left out.
-/

namespace OpenSim

/-- The accessors of `Muscle` that the probe reads, evaluated at the current state. -/
structure Muscle where
  name : String
  maxIsometricForce : ℚ
  maxContractionVelocity : ℚ
  activation : ℚ
  control : ℚ
  passiveFiberForce : ℚ
  activeFiberForce : ℚ
  fiberForce : ℚ
  normalizedFiberLength : ℚ
  fiberVelocity : ℚ
  normalizedFiberVelocity : ℚ
  forceVelocityMultiplier : ℚ
  deriving DecidableEq

/-- One entry of the `MetabolicMuscleParameterSet`. -/
structure MetabolicMuscleParameter where
  name : String
  muscleMass : ℚ
  ratioSlowTwitchFibers : ℚ
  deriving DecidableEq

/-- The model the probe is connected to (`_model`), at the current state. -/
structure Model where
  muscles : List Muscle
  systemMass : ℚ
  deriving DecidableEq

/-- The properties of the probe, named as in `constructProperties`, and its name. -/
structure MuscleMetabolicPowerProbeUmberger2003 where
  name : String
  activation_maintenance_rate_on : Bool
  shortening_rate_on : Bool
  basal_rate_on : Bool
  mechanical_work_rate_on : Bool
  scaling_factor : ℚ
  basal_coefficient : ℚ
  basal_exponent : ℚ
  MetabolicMuscleParameterSet : List MetabolicMuscleParameter
  deriving DecidableEq

/-- The exceptions the translation unit can raise, one constructor per `throw`, in the
order of the source; the string is the muscle name placed in the message.
`arrayIndexOutOfBounds` is the exception of `Set::get` for an index outside the set. -/
inductive Exception where
  | invalidMuscle (muscle : String)
  | arrayIndexOutOfBounds
  | invalidMuscleMass (muscle : String)
  | invalidRatioSlowTwitchFibers (muscle : String)
  | zeroMaxIsometricForce (muscle : String)
  | zeroForceVelocityMultiplier (muscle : String)
  deriving DecidableEq

/-- The messages written to `cout`, one constructor per output statement. -/
inductive Warning where
  | BdotNaN (probe : String)
  | negativeFiberLength (muscle : String)
  | slowTwitchExceedsMax (probe : String)
  | fastTwitchExceedsMax (probe : String)
  | AMdotNaN (probe muscle : String)
  | SdotNaN (probe muscle : String)
  | WdotNaN (probe muscle : String)
  deriving DecidableEq

/-- The comparison `x == NaN` of the source. `SimTK::NaN` is an IEEE not-a-number, and
the operator `==` is false whenever an operand is a not-a-number. -/
def eqNaN (_x : ℚ) : Bool := false

/-- Modelled from the spec: `Set::getIndex` is declared outside this translation unit.
A parameter names a muscle of the model; the result is the position of the first muscle
with that name and `-1` when no muscle has it. -/
def getIndex (muscles : List Muscle) (aName : String) : Int :=
  match muscles with
  | [] => -1
  | m :: rest =>
    if m.name = aName then 0
    else
      let k := getIndex rest aName
      if k < 0 then -1 else k + 1

/-- Modelled from the spec: `Set::get` is declared outside this translation unit. A
parameter resolves to exactly one muscle handle of the model, the one at the position
`getIndex` found; an index outside the set raises the out-of-bounds exception. -/
def get (muscles : List Muscle) (k : Int) : Except Exception Muscle :=
  if k < 0 then .error .arrayIndexOutOfBounds
  else
    match muscles[k.toNat]? with
    | some m => .ok m
    | none => .error .arrayIndexOutOfBounds

namespace MuscleMetabolicPowerProbeUmberger2003

/-- The default property values of `constructProperties`, for a probe called `name`. -/
def constructProperties (name : String) : MuscleMetabolicPowerProbeUmberger2003 :=
  { name := name
    activation_maintenance_rate_on := true
    shortening_rate_on := true
    basal_rate_on := true
    mechanical_work_rate_on := true
    scaling_factor := 1.0
    basal_coefficient := 1.51
    basal_exponent := 1.0
    MetabolicMuscleParameterSet := [] }

/-- The method `checkValidMetabolicMuscle`: the muscle of the model that `mm` names, after
the three checks of the source in their order. -/
def checkValidMetabolicMuscle (model : Model) (mm : MetabolicMuscleParameter) :
    Except Exception Muscle :=
  let k := getIndex model.muscles mm.name
  if k < 0 then .error (.invalidMuscle mm.name)
  else
    match get model.muscles k with
    | .error e => .error e
    | .ok musc =>
      if mm.muscleMass ≤ 0 then .error (.invalidMuscleMass mm.name)
      else if mm.ratioSlowTwitchFibers < 0 ∨ mm.ratioSlowTwitchFibers > 1 then
        .error (.invalidRatioSlowTwitchFibers mm.name)
      else .ok musc

/-- The variables of `computeProbeInputs` that live across iterations of the muscle loop:
`AMdot`, `Sdot` and `Wdot` (declared before the loop), the entries of `Edot` written so
far, and the text written to `cout`. -/
structure LoopState where
  AMdot : ℚ
  Sdot : ℚ
  Wdot : ℚ
  Edot : List ℚ
  cout : List Warning
  deriving DecidableEq

/-- One iteration of the muscle loop of `computeProbeInputs`, for the parameter `mm`. An
exception leaves the loop; all three `throw` statements come before the first assignment
to a variable of `LoopState`. -/
def loopBody (pow : ℚ → ℚ → ℚ) (probe : MuscleMetabolicPowerProbeUmberger2003)
    (model : Model) (mm : MetabolicMuscleParameter) (st : LoopState) :
    Except Exception LoopState :=
  match checkValidMetabolicMuscle model mm with
  | .error e => .error e
  | .ok m =>
    let max_isometric_force := m.maxIsometricForce
    let max_shortening_velocity := m.maxContractionVelocity
    let activation := m.activation
    let excitation := m.control
    let fiber_force_active := m.activeFiberForce
    let fiber_length_normalized := m.normalizedFiberLength
    let fiber_velocity := m.fiberVelocity
    let fiber_velocity_normalized := m.normalizedFiberVelocity
    let A := if excitation > activation then excitation else (excitation + activation) / 2
    if max_isometric_force = 0 then .error (.zeroMaxIsometricForce m.name)
    else if m.forceVelocityMultiplier = 0 then .error (.zeroForceVelocityMultiplier m.name)
    else
      let F_iso := (fiber_force_active / m.forceVelocityMultiplier) / max_isometric_force
      let cout1 :=
        if fiber_length_normalized < 0 then st.cout ++ [Warning.negativeFiberLength m.name]
        else st.cout
      -- ACTIVATION & MAINTENANCE HEAT RATE
      let AMdot :=
        if probe.activation_maintenance_rate_on then
          let unscaledAMdot := 128 * (1 - mm.ratioSlowTwitchFibers) + 25
          if fiber_length_normalized ≤ 1.0 then
            probe.scaling_factor * pow A 0.6 * unscaledAMdot
          else
            probe.scaling_factor * pow A 0.6 *
              ((0.4 * unscaledAMdot) + (0.6 * unscaledAMdot * F_iso))
        else st.AMdot
      -- SHORTENING HEAT RATE: the new value of Sdot and of cout
      let S : ℚ × List Warning :=
        if probe.shortening_rate_on then
          let Vmax_slowtwitch :=
            max_shortening_velocity / (1 + 1.5 * (1 - mm.ratioSlowTwitchFibers))
          let Vmax_fasttwitch := 2.5 * Vmax_slowtwitch
          let alpha_shortening_fasttwitch := 153 / Vmax_fasttwitch
          let alpha_shortening_slowtwitch := 100 / Vmax_slowtwitch
          let U : ℚ × List Warning :=
            if fiber_velocity_normalized ≤ 0 then
              let maxShorteningRate : ℚ := 100
              let tmp_slowTwitch0 :=
                alpha_shortening_slowtwitch * fiber_velocity_normalized *
                  mm.ratioSlowTwitchFibers
              let slow : ℚ × List Warning :=
                if tmp_slowTwitch0 > maxShorteningRate then
                  (maxShorteningRate, cout1 ++ [Warning.slowTwitchExceedsMax probe.name])
                else (tmp_slowTwitch0, cout1)
              let tmp_fastTwitch0 :=
                alpha_shortening_fasttwitch * fiber_velocity_normalized *
                  (1 - mm.ratioSlowTwitchFibers)
              let fast : ℚ × List Warning :=
                if tmp_fastTwitch0 > maxShorteningRate then
                  (maxShorteningRate, slow.2 ++ [Warning.fastTwitchExceedsMax probe.name])
                else (tmp_fastTwitch0, slow.2)
              (-slow.1 - fast.1, fast.2)
            else
              (-0.3 * alpha_shortening_slowtwitch * fiber_velocity_normalized, cout1)
          let unscaledSdot := U.1
          let Sdot0 :=
            if fiber_velocity_normalized ≤ 0 then
              probe.scaling_factor * pow A 2.0 * unscaledSdot
            else
              probe.scaling_factor * A * unscaledSdot
          (if fiber_length_normalized > 1.0 then Sdot0 * F_iso else Sdot0, U.2)
        else (st.Sdot, cout1)
      let Sdot := S.1
      -- MECHANICAL WORK RATE
      let Wdot :=
        if probe.mechanical_work_rate_on then
          (if fiber_velocity ≤ 0 then -fiber_force_active * fiber_velocity else 0) /
            mm.muscleMass
        else st.Wdot
      -- NAN CHECKING
      let cout2 :=
        if eqNaN AMdot then S.2 ++ [Warning.AMdotNaN probe.name m.name] else S.2
      let cout3 :=
        if eqNaN Sdot then cout2 ++ [Warning.SdotNaN probe.name m.name] else cout2
      let cout4 :=
        if eqNaN Wdot then cout3 ++ [Warning.WdotNaN probe.name m.name] else cout3
      -- TOTAL METABOLIC ENERGY RATE for muscle i
      .ok { AMdot := AMdot, Sdot := Sdot, Wdot := Wdot,
            Edot := st.Edot ++ [AMdot + Sdot + Wdot], cout := cout4 }

/-- The muscle loop of `computeProbeInputs` over the parameters still to be visited: the
state when the loop is left, and the exception that left it, if any. -/
def muscleLoop (pow : ℚ → ℚ → ℚ) (probe : MuscleMetabolicPowerProbeUmberger2003)
    (model : Model) : List MetabolicMuscleParameter → LoopState →
    LoopState × Option Exception
  | [], st => (st, none)
  | mm :: rest, st =>
    match loopBody pow probe model mm st with
    | .error e => (st, some e)
    | .ok st2 => muscleLoop pow probe model rest st2

/-- The loop variables when `computeProbeInputs` enters the muscle loop: `AMdot`, `Sdot`
and `Wdot` are `0`, no entry of `Edot` is written, and `c` is the text already on `cout`. -/
def loopEntry (c : List Warning) : LoopState :=
  { AMdot := 0, Sdot := 0, Wdot := 0, Edot := [], cout := c }

/-- What a call of `computeProbeInputs` leaves behind: the text on `cout`, and either
the returned `SimTK::Vector` or the exception thrown. -/
structure Outcome where
  cout : List Warning
  result : Except Exception (List ℚ)

/-- The method `computeProbeInputs`. -/
def computeProbeInputs (pow : ℚ → ℚ → ℚ) (probe : MuscleMetabolicPowerProbeUmberger2003)
    (model : Model) : Outcome :=
  let Bdot : ℚ :=
    if probe.basal_rate_on = true then
      probe.basal_coefficient * pow model.systemMass probe.basal_exponent
    else 0
  let cout0 : List Warning :=
    if probe.basal_rate_on = true ∧ eqNaN Bdot = true then [Warning.BdotNaN probe.name]
    else []
  let fin := muscleLoop pow probe model probe.MetabolicMuscleParameterSet (loopEntry cout0)
  match fin.2 with
  | some e => { cout := fin.1.cout, result := .error e }
  | none => { cout := fin.1.cout, result := .ok [fin.1.Edot.sum + Bdot] }

/-- The method `getNumProbeInputs`. -/
def getNumProbeInputs (_probe : MuscleMetabolicPowerProbeUmberger2003) : Int := 1

/-- The method `getProbeOutputLabels`: an empty array with the name appended. -/
def getProbeOutputLabels (probe : MuscleMetabolicPowerProbeUmberger2003) : List String :=
  [] ++ [probe.name]

/-- The activation dependence scaling parameter `A` that `computeProbeInputs` sets for a
muscle (the `if` on `excitation > activation`), as a function of the two values read. -/
def A (excitation activation : ℚ) : ℚ :=
  if excitation > activation then excitation else (excitation + activation) / 2

/-- The slow-twitch divisor `Vmax_slowtwitch` of the shortening block, as a function of
the maximum contraction velocity and the slow-twitch ratio. -/
def Vmax_slowtwitch (max_shortening_velocity ratioSlowTwitchFibers : ℚ) : ℚ :=
  max_shortening_velocity / (1 + 1.5 * (1 - ratioSlowTwitchFibers))

/-- The fast-twitch divisor `Vmax_fasttwitch` of the shortening block. -/
def Vmax_fasttwitch (max_shortening_velocity ratioSlowTwitchFibers : ℚ) : ℚ :=
  2.5 * Vmax_slowtwitch max_shortening_velocity ratioSlowTwitchFibers

/-- The value `tmp_slowTwitch` of the concentric branch before its comparison with
`maxShorteningRate`. -/
def tmp_slowTwitch (max_shortening_velocity fiber_velocity_normalized
    ratioSlowTwitchFibers : ℚ) : ℚ :=
  100 / Vmax_slowtwitch max_shortening_velocity ratioSlowTwitchFibers *
    fiber_velocity_normalized * ratioSlowTwitchFibers

/-- The value `tmp_fastTwitch` of the concentric branch before its comparison with
`maxShorteningRate`. -/
def tmp_fastTwitch (max_shortening_velocity fiber_velocity_normalized
    ratioSlowTwitchFibers : ℚ) : ℚ :=
  153 / Vmax_fasttwitch max_shortening_velocity ratioSlowTwitchFibers *
    fiber_velocity_normalized * (1 - ratioSlowTwitchFibers)

/-- Whether a message on `cout` is one of the four not-a-number warnings. -/
def reportsNaN : Warning → Bool
  | .BdotNaN _ => true
  | .AMdotNaN _ _ => true
  | .SdotNaN _ _ => true
  | .WdotNaN _ _ => true
  | .negativeFiberLength _ => false
  | .slowTwitchExceedsMax _ => false
  | .fastTwitchExceedsMax _ => false

/-- The probe with its four enable flags replaced, in the order of the convenience
constructor: activation-maintenance, shortening, basal, mechanical work. -/
def withFlags (probe : MuscleMetabolicPowerProbeUmberger2003)
    (activation_maintenance_rate_on shortening_rate_on basal_rate_on work_rate_on : Bool) :
    MuscleMetabolicPowerProbeUmberger2003 :=
  { probe with
    activation_maintenance_rate_on := activation_maintenance_rate_on
    shortening_rate_on := shortening_rate_on
    basal_rate_on := basal_rate_on
    mechanical_work_rate_on := work_rate_on }

end MuscleMetabolicPowerProbeUmberger2003

/-! ### Doubles with not-a-number, and rounded addition -/

namespace IEEE

/-- A C++ `double` as its comparisons see it: an infinity, a finite value, or
not-a-number. -/
inductive Double where
  | negInf
  | finite (q : ℚ)
  | posInf
  | nan
  deriving DecidableEq

/-- The comparison `a < b` of two doubles: false when an operand is not-a-number. -/
def Double.lt (a b : Double) : Bool :=
  match a, b with
  | .nan, _ => false
  | _, .nan => false
  | _, .negInf => false
  | .posInf, _ => false
  | .negInf, _ => true
  | _, .posInf => true
  | .finite x, .finite y => decide (x < y)

/-- The comparison `a <= b` of two doubles: false when an operand is not-a-number. -/
def Double.le (a b : Double) : Bool :=
  match a, b with
  | .nan, _ => false
  | _, .nan => false
  | .negInf, _ => true
  | _, .posInf => true
  | .finite x, .finite y => decide (x ≤ y)
  | _, _ => false

/-- The comparison `a > b` of two doubles. -/
def Double.gt (a b : Double) : Bool := Double.lt b a

/-- One entry of the `MetabolicMuscleParameterSet`, its two `double` properties with the
values a `double` can hold. -/
structure MetabolicMuscleParameter where
  name : String
  muscleMass : Double
  ratioSlowTwitchFibers : Double
  deriving DecidableEq

/-- The method `checkValidMetabolicMuscle` over doubles: the same lookup and the same
three checks in the same order, the comparisons being those of `double`. -/
def checkValidMetabolicMuscle (model : Model) (mm : MetabolicMuscleParameter) :
    Except Exception Muscle :=
  let k := getIndex model.muscles mm.name
  if k < 0 then .error (.invalidMuscle mm.name)
  else
    match get model.muscles k with
    | .error e => .error e
    | .ok musc =>
      if Double.le mm.muscleMass (.finite 0) then .error (.invalidMuscleMass mm.name)
      else if Double.lt mm.ratioSlowTwitchFibers (.finite 0) ||
          Double.gt mm.ratioSlowTwitchFibers (.finite 1) then
        .error (.invalidRatioSlowTwitchFibers mm.name)
      else .ok musc

/-- The integer nearest to `q`, the even one of the two when `q` lies halfway. -/
def roundHalfEven (q : ℚ) : ℤ :=
  let f := ⌊q⌋
  if q - f < 1 / 2 then f
  else if 1 / 2 < q - f then f + 1
  else if f % 2 = 0 then f
  else f + 1

/-- The double nearest to the rational `x`, ties to even: `x` is rounded to a multiple of
`2 ^ (e - 52)`, with `e` the exponent of `x` and at least -1022. It is the value a `double`
operation stores when its exact result is `x` and `x` is below `2 ^ 1024` in magnitude. -/
def roundToDouble (x : ℚ) : ℚ :=
  if x = 0 then 0
  else
    let e := max (Int.log 2 |x|) (-1022)
    let ulp : ℚ := 2 ^ (e - 52)
    roundHalfEven (x / ulp) * ulp

/-- The sum `a + b` of two finite doubles as `double` arithmetic computes it. -/
def fadd (a b : ℚ) : ℚ := roundToDouble (a + b)

/-- The statement `Edot(i) = AMdot + Sdot + Wdot` of `computeProbeInputs` in `double`
arithmetic: two additions, left to right. -/
def Edot (AMdot Sdot Wdot : ℚ) : ℚ := fadd (fadd AMdot Sdot) Wdot

/-- Modelled from the spec: `Vector::sum` is declared outside this translation unit. The
muscle sum is taken in the iteration order of the parameter set; here each entry is added
to the running sum in `double` arithmetic, from the first entry on. -/
def sum (Edot : List ℚ) : ℚ := Edot.foldl fadd 0

end IEEE

namespace MuscleMetabolicPowerProbeUmberger2003

/-! ### The specification's wording, for comparison with the code -/

/-- Activation scaling as section 4.2 step 1 of the specification words it: the
excitation when it exceeds the activation, else the mean of the two. -/
def specA (m : Muscle) : ℚ :=
  if m.control > m.activation then m.control else (m.control + m.activation) / 2

/-- Isometric force fraction as section 4.2 step 2 of the specification words it. -/
def specFiso (m : Muscle) : ℚ :=
  (m.activeFiberForce / m.forceVelocityMultiplier) / m.maxIsometricForce

/-- Activation-maintenance heat rate of one muscle as section 4.2 step 3 of the
specification words it; `0` when the term is disabled. -/
def specAMdot (pow : ℚ → ℚ → ℚ) (probe : MuscleMetabolicPowerProbeUmberger2003)
    (mm : MetabolicMuscleParameter) (m : Muscle) : ℚ :=
  if probe.activation_maintenance_rate_on then
    if m.normalizedFiberLength ≤ 1 then
      probe.scaling_factor * pow (specA m) 0.6 * (128 * (1 - mm.ratioSlowTwitchFibers) + 25)
    else
      probe.scaling_factor * pow (specA m) 0.6 *
        (0.4 * (128 * (1 - mm.ratioSlowTwitchFibers) + 25) +
          0.6 * (128 * (1 - mm.ratioSlowTwitchFibers) + 25) * specFiso m)
  else 0

/-- The value `x` replaced by 100 when it exceeds 100 (section 4.2 step 4). -/
def specClamp (x : ℚ) : ℚ := if x > 100 then 100 else x

/-- Shortening and lengthening heat rate of one muscle as section 4.2 step 4 of the
specification words it; `0` when the term is disabled. -/
def specSdot (pow : ℚ → ℚ → ℚ) (probe : MuscleMetabolicPowerProbeUmberger2003)
    (mm : MetabolicMuscleParameter) (m : Muscle) : ℚ :=
  if probe.shortening_rate_on then
    let Vmax_slow := m.maxContractionVelocity / (1 + 1.5 * (1 - mm.ratioSlowTwitchFibers))
    let Vmax_fast := 2.5 * Vmax_slow
    let alpha_fast := 153 / Vmax_fast
    let alpha_slow := 100 / Vmax_slow
    let Sdot0 :=
      if m.normalizedFiberVelocity ≤ 0 then
        let slowTerm :=
          specClamp (alpha_slow * m.normalizedFiberVelocity * mm.ratioSlowTwitchFibers)
        let fastTerm :=
          specClamp (alpha_fast * m.normalizedFiberVelocity * (1 - mm.ratioSlowTwitchFibers))
        probe.scaling_factor * pow (specA m) 2 * (-(slowTerm + fastTerm))
      else
        probe.scaling_factor * specA m * (-0.3 * alpha_slow * m.normalizedFiberVelocity)
    if m.normalizedFiberLength > 1 then Sdot0 * specFiso m else Sdot0
  else 0

/-- Mechanical work rate of one muscle as section 4.2 step 5 of the specification words
it; `0` when the term is disabled. -/
def specWdot (probe : MuscleMetabolicPowerProbeUmberger2003)
    (mm : MetabolicMuscleParameter) (m : Muscle) : ℚ :=
  if probe.mechanical_work_rate_on then
    (if m.fiberVelocity ≤ 0 then -m.activeFiberForce * m.fiberVelocity else 0) / mm.muscleMass
  else 0

/-- Per-muscle total of section 4.2 step 6: a function of the configuration, the
parameter and the state of that one muscle. -/
def specEdot (pow : ℚ → ℚ → ℚ) (probe : MuscleMetabolicPowerProbeUmberger2003)
    (mm : MetabolicMuscleParameter) (m : Muscle) : ℚ :=
  specAMdot pow probe mm m + specSdot pow probe mm m + specWdot probe mm m

/-- The per-muscle total of the parameter `mm` in the model: `specEdot` at the muscle the
parameter resolves to (`0` for a parameter that does not resolve). -/
def perMuscleEdot (pow : ℚ → ℚ → ℚ) (probe : MuscleMetabolicPowerProbeUmberger2003)
    (model : Model) (mm : MetabolicMuscleParameter) : ℚ :=
  match checkValidMetabolicMuscle model mm with
  | .ok m => specEdot pow probe mm m
  | .error _ => 0

/-- Whole-body basal term of section 4.3. -/
def specBdot (pow : ℚ → ℚ → ℚ) (probe : MuscleMetabolicPowerProbeUmberger2003)
    (model : Model) : ℚ :=
  if probe.basal_rate_on then
    probe.basal_coefficient * pow model.systemMass probe.basal_exponent
  else 0

/-- The first check that fails for the parameter `mm`, in the order (1) name absent from the
model, (2) mass not positive, (3) ratio outside the unit interval, (4) zero maximum
isometric force, (5) zero force-velocity multiplier; `none` when all five pass. -/
def firstFailingCheck (model : Model) (mm : MetabolicMuscleParameter) : Option Exception :=
  match model.muscles.find? (fun m => decide (m.name = mm.name)) with
  | none => some (.invalidMuscle mm.name)
  | some m =>
    if mm.muscleMass ≤ 0 then some (.invalidMuscleMass mm.name)
    else if ¬ (0 ≤ mm.ratioSlowTwitchFibers ∧ mm.ratioSlowTwitchFibers ≤ 1) then
      some (.invalidRatioSlowTwitchFibers mm.name)
    else if m.maxIsometricForce = 0 then some (.zeroMaxIsometricForce m.name)
    else if m.forceVelocityMultiplier = 0 then some (.zeroForceVelocityMultiplier m.name)
    else none

/-! ### Concrete inputs -/

/-- A stand-in for `pow` at which theorems are instantiated: exact for base 1 and for the
exponents 1 and 2, and 8747/10000 (the value of 0.8^0.6 to four places) elsewhere. -/
def powStandIn (x y : ℚ) : ℚ :=
  if x = 1 then 1 else if y = 1 then x else if y = 2 then x * x else 8747 / 10000

/-- The muscle state of the end-to-end fixture of section 8 of the specification. -/
def fixtureMuscle (name : String) : Muscle :=
  { name := name
    maxIsometricForce := 1000
    maxContractionVelocity := 10
    activation := 0.8
    control := 0.8
    passiveFiberForce := 0
    activeFiberForce := 500
    fiberForce := 500
    normalizedFiberLength := 1.0
    fiberVelocity := -0.1
    normalizedFiberVelocity := -0.05
    forceVelocityMultiplier := 1.0 }

/-- The muscle parameter of the end-to-end fixture. -/
def fixtureParameter (name : String) : MetabolicMuscleParameter :=
  { name := name, muscleMass := 0.5, ratioSlowTwitchFibers := 0.5 }

/-- The probe of the end-to-end fixture: scaling factor 1, basal term disabled, the other
three terms enabled, one parameter. -/
def fixtureProbe (probeName muscleName : String) (basal_coefficient basal_exponent : ℚ) :
    MuscleMetabolicPowerProbeUmberger2003 :=
  { name := probeName
    activation_maintenance_rate_on := true
    shortening_rate_on := true
    basal_rate_on := false
    mechanical_work_rate_on := true
    scaling_factor := 1
    basal_coefficient := basal_coefficient
    basal_exponent := basal_exponent
    MetabolicMuscleParameterSet := [fixtureParameter muscleName] }

/-- The model of the end-to-end fixture: the one muscle. -/
def fixtureModel (muscleName : String) (systemMass : ℚ) : Model :=
  { muscles := [fixtureMuscle muscleName], systemMass := systemMass }

/-- A probe with every term disabled and one parameter that names no muscle. -/
def allOffProbe : MuscleMetabolicPowerProbeUmberger2003 :=
  { name := "probe"
    activation_maintenance_rate_on := false
    shortening_rate_on := false
    basal_rate_on := false
    mechanical_work_rate_on := false
    scaling_factor := 1
    basal_coefficient := 1.51
    basal_exponent := 1
    MetabolicMuscleParameterSet := [{ name := "soleus", muscleMass := 1, ratioSlowTwitchFibers := 0.5 }] }

/-- A muscle at rest: the fixture muscle with zero excitation, activation, active fiber
force and fiber velocity. -/
def restingMuscle (name : String) : Muscle :=
  { fixtureMuscle name with
    activation := 0
    control := 0
    activeFiberForce := 0
    fiberForce := 0
    fiberVelocity := 0
    normalizedFiberVelocity := 0 }

/-- The probe with the default properties of `constructProperties`, all four terms
enabled, and the fixture parameter as its one parameter. -/
def defaultProbeOneMuscle (probeName muscleName : String) :
    MuscleMetabolicPowerProbeUmberger2003 :=
  { constructProperties probeName with
    MetabolicMuscleParameterSet := [fixtureParameter muscleName] }

/-- A fully excited muscle at normalized fiber length 1 that shortens at fiber velocity -1
with the active fiber force `force`. -/
def unitMuscle (name : String) (force : ℚ) : Muscle :=
  { name := name
    maxIsometricForce := 1000
    maxContractionVelocity := 10
    activation := 1
    control := 1
    passiveFiberForce := 0
    activeFiberForce := force
    fiberForce := force
    normalizedFiberLength := 1
    fiberVelocity := -1
    normalizedFiberVelocity := -0.1
    forceVelocityMultiplier := 1 }

/-- A parameter with muscle mass 1 and slow-twitch ratio 1. -/
def unitParameter (name : String) : MetabolicMuscleParameter :=
  { name := name, muscleMass := 1, ratioSlowTwitchFibers := 1 }

/-- Three unit muscles with the active fiber forces 1, `2 ^ -53` and `2 ^ -53`. -/
def sumModel : Model :=
  { muscles := [unitMuscle "m1" 1, unitMuscle "m2" (2 ^ (-53 : ℤ)),
      unitMuscle "m3" (2 ^ (-53 : ℤ))]
    systemMass := 70 }

/-- The default properties with only the mechanical work term enabled. -/
def workOnlyProbe : MuscleMetabolicPowerProbeUmberger2003 :=
  withFlags (constructProperties "probe") false false false true

/-- A model without muscles. -/
def emptyModel : Model := { muscles := [], systemMass := 70 }

end MuscleMetabolicPowerProbeUmberger2003

/-! ## Theorems -/

open MuscleMetabolicPowerProbeUmberger2003

theorem getIndex_ge (ms : List Muscle) (n : String) : -1 ≤ getIndex ms n := by
  induction ms with
  | nil => simp [getIndex]
  | cons m rest ih =>
    simp only [getIndex]
    split_ifs <;> omega

theorem getIndex_neg_iff (ms : List Muscle) (n : String) :
    getIndex ms n < 0 ↔ ∀ m ∈ ms, m.name ≠ n := by
  induction ms with
  | nil => simp [getIndex]
  | cons m rest ih =>
    simp only [getIndex, List.mem_cons, forall_eq_or_imp]
    by_cases h : m.name = n
    · simp [h]
    · simp only [h, if_false, ne_eq, not_false_eq_true, true_and]
      rw [← ih]
      split_ifs with hk
      · simp [hk]
      · constructor
        · intro h1; omega
        · intro h1; exact absurd h1 hk

theorem get_getIndex (ms : List Muscle) (n : String) (h : ¬ getIndex ms n < 0) :
    ∃ m, get ms (getIndex ms n) = .ok m ∧
      ms.find? (fun x => decide (x.name = n)) = some m := by
  induction ms with
  | nil => simp [getIndex] at h
  | cons m rest ih =>
    by_cases hn : m.name = n
    · exact ⟨m, by simp [getIndex, hn, get], by simp [List.find?, hn]⟩
    · by_cases hk : getIndex rest n < 0
      · simp [getIndex, hn, hk] at h
      · obtain ⟨x, hx, hfind⟩ := ih hk
        refine ⟨x, ?_, by simp [List.find?, hn, hfind]⟩
        have h1 : ¬ getIndex rest n + 1 < 0 := by omega
        have h2 : (getIndex rest n + 1).toNat = (getIndex rest n).toNat + 1 := by omega
        simp only [get, hk, if_false] at hx
        simp only [getIndex, hn, hk, if_false, get, h1, h2, List.getElem?_cons_succ]
        exact hx

theorem find?_of_getIndex_neg (ms : List Muscle) (n : String) (h : getIndex ms n < 0) :
    ms.find? (fun x => decide (x.name = n)) = none := by
  rw [List.find?_eq_none]
  intro x hx
  simpa using (getIndex_neg_iff ms n).1 h x hx

/-- The method `checkValidMetabolicMuscle` in terms of the first muscle of the model that
carries the name of the parameter. -/
theorem checkValidMetabolicMuscle_eq (model : Model) (mm : MetabolicMuscleParameter) :
    checkValidMetabolicMuscle model mm =
      match model.muscles.find? (fun x => decide (x.name = mm.name)) with
      | none => .error (.invalidMuscle mm.name)
      | some m =>
        if mm.muscleMass ≤ 0 then .error (.invalidMuscleMass mm.name)
        else if mm.ratioSlowTwitchFibers < 0 ∨ mm.ratioSlowTwitchFibers > 1 then
          .error (.invalidRatioSlowTwitchFibers mm.name)
        else .ok m := by
  by_cases hk : getIndex model.muscles mm.name < 0
  · simp [checkValidMetabolicMuscle, hk, find?_of_getIndex_neg _ _ hk]
  · obtain ⟨m, hget, hfind⟩ := get_getIndex _ _ hk
    simp [checkValidMetabolicMuscle, hk, hget, hfind]

/-- An iteration of the muscle loop throws exactly the first failing check. -/
theorem loopBody_error_iff (pow : ℚ → ℚ → ℚ) (probe : MuscleMetabolicPowerProbeUmberger2003)
    (model : Model) (mm : MetabolicMuscleParameter) (st : LoopState) (e : Exception) :
    loopBody pow probe model mm st = .error e ↔ firstFailingCheck model mm = some e := by
  unfold loopBody firstFailingCheck
  rw [checkValidMetabolicMuscle_eq]
  cases hfind : model.muscles.find? (fun x => decide (x.name = mm.name)) with
  | none => simp
  | some m =>
    by_cases h1 : mm.muscleMass ≤ 0
    · simp [h1]
    · by_cases h2 : mm.ratioSlowTwitchFibers < 0 ∨ mm.ratioSlowTwitchFibers > 1
      · have h3 : ¬ (0 ≤ mm.ratioSlowTwitchFibers ∧ mm.ratioSlowTwitchFibers ≤ 1) := by
          rintro ⟨h4, h5⟩
          rcases h2 with h2 | h2 <;> linarith
        simp [h1, h2, h3]
      · have h3 : 0 ≤ mm.ratioSlowTwitchFibers ∧ mm.ratioSlowTwitchFibers ≤ 1 := by
          constructor
          · by_contra h4; exact h2 (Or.inl (lt_of_not_ge h4))
          · by_contra h4; exact h2 (Or.inr (lt_of_not_ge h4))
        by_cases h4 : m.maxIsometricForce = 0
        · simp [h1, h2, h3, h4]
        · by_cases h5 : m.forceVelocityMultiplier = 0
          · simp [h1, h2, h3, h4, h5]
          · simp [h1, h2, h3, h4, h5]
/-- When no check fails, the parameter resolves to a muscle with nonzero maximum isometric
force and force-velocity multiplier. -/
theorem firstFailingCheck_none (model : Model) (mm : MetabolicMuscleParameter)
    (h : firstFailingCheck model mm = none) :
    ∃ m, checkValidMetabolicMuscle model mm = .ok m ∧ m.maxIsometricForce ≠ 0 ∧
      m.forceVelocityMultiplier ≠ 0 := by
  rw [checkValidMetabolicMuscle_eq]
  unfold firstFailingCheck at h
  cases hfind : model.muscles.find? (fun x => decide (x.name = mm.name)) with
  | none => simp [hfind] at h
  | some m =>
    simp only [hfind] at h
    split_ifs at h with h1 h2 h3 h4
    refine ⟨m, ?_, h3, h4⟩
    have h5 : ¬ (mm.ratioSlowTwitchFibers < 0 ∨ mm.ratioSlowTwitchFibers > 1) := by
      push_neg at h2 ⊢
      exact h2
    simp [h1, h5]

/-- The loop variables after an iteration that does not throw. -/
theorem loopBody_ok (pow : ℚ → ℚ → ℚ) (probe : MuscleMetabolicPowerProbeUmberger2003)
    (model : Model) (mm : MetabolicMuscleParameter) (st : LoopState) (m : Muscle)
    (hc : checkValidMetabolicMuscle model mm = .ok m) (h1 : m.maxIsometricForce ≠ 0)
    (h2 : m.forceVelocityMultiplier ≠ 0) :
    ∃ st2, loopBody pow probe model mm st = .ok st2 ∧
      st2.AMdot =
        (if probe.activation_maintenance_rate_on then specAMdot pow probe mm m
          else st.AMdot) ∧
      st2.Sdot = (if probe.shortening_rate_on then specSdot pow probe mm m else st.Sdot) ∧
      st2.Wdot = (if probe.mechanical_work_rate_on then specWdot probe mm m else st.Wdot) ∧
      st2.Edot = st.Edot ++ [st2.AMdot + st2.Sdot + st2.Wdot] := by
  have e1 : (1.0 : ℚ) = 1 := by norm_num
  have e2 : (2.0 : ℚ) = 2 := by norm_num
  simp only [loopBody, hc, h1, h2, if_false]
  refine ⟨_, rfl, ?_, ?_, ?_, rfl⟩
  · cases ha : probe.activation_maintenance_rate_on
    · simp
    · simp only [if_true, specAMdot, specA, specFiso, e1, ha]
  · cases hs : probe.shortening_rate_on
    · simp
    · simp only [if_true, specSdot, specA, specFiso, specClamp, e1, e2, hs, neg_add_rev,
        apply_ite Prod.fst]
      by_cases hv : m.normalizedFiberVelocity ≤ 0
      · simp only [hv, if_true, sub_eq_add_neg, add_comm]
      · simp only [hv, if_false]
  · cases hw : probe.mechanical_work_rate_on
    · simp
    · simp only [if_true, specWdot, hw]
/-- The exception that leaves the muscle loop is the first failing check of the first
parameter that has one. -/
theorem muscleLoop_thrown (pow : ℚ → ℚ → ℚ) (probe : MuscleMetabolicPowerProbeUmberger2003)
    (model : Model) (ps : List MetabolicMuscleParameter) (st : LoopState) :
    (muscleLoop pow probe model ps st).2 = ps.findSome? (firstFailingCheck model) := by
  induction ps generalizing st with
  | nil => simp [muscleLoop]
  | cons mm rest ih =>
    cases h : firstFailingCheck model mm with
    | none =>
      obtain ⟨m, hc, h1, h2⟩ := firstFailingCheck_none model mm h
      obtain ⟨st2, hb, -⟩ := loopBody_ok pow probe model mm st m hc h1 h2
      simp [muscleLoop, hb, List.findSome?, h, ih]
    | some e =>
      have hb := (loopBody_error_iff pow probe model mm st e).2 h
      simp [muscleLoop, hb, List.findSome?, h]

/-- The entries of `Edot` after a loop that does not throw, entered with the variable of
every disabled term at `0`: one per parameter, each the per-muscle total of its own
parameter. -/
theorem muscleLoop_Edot (pow : ℚ → ℚ → ℚ) (probe : MuscleMetabolicPowerProbeUmberger2003)
    (model : Model) (ps : List MetabolicMuscleParameter) (st : LoopState)
    (hAM : probe.activation_maintenance_rate_on = false → st.AMdot = 0)
    (hS : probe.shortening_rate_on = false → st.Sdot = 0)
    (hW : probe.mechanical_work_rate_on = false → st.Wdot = 0)
    (hnone : ps.findSome? (firstFailingCheck model) = none) :
    (muscleLoop pow probe model ps st).1.Edot =
      st.Edot ++ ps.map (perMuscleEdot pow probe model) := by
  induction ps generalizing st with
  | nil => simp [muscleLoop]
  | cons mm rest ih =>
    have h : firstFailingCheck model mm = none := by
      cases hx : firstFailingCheck model mm with
      | none => rfl
      | some e => simp [List.findSome?, hx] at hnone
    have hrest : rest.findSome? (firstFailingCheck model) = none := by
      simpa [List.findSome?, h] using hnone
    obtain ⟨m, hc, h1, h2⟩ := firstFailingCheck_none model mm h
    obtain ⟨st2, hb, hA2, hS2, hW2, hE2⟩ := loopBody_ok pow probe model mm st m hc h1 h2
    have kA : st2.AMdot = specAMdot pow probe mm m := by
      rw [hA2]
      cases ha : probe.activation_maintenance_rate_on
      · simp [specAMdot, ha, hAM ha]
      · simp
    have kS : st2.Sdot = specSdot pow probe mm m := by
      rw [hS2]
      cases hs : probe.shortening_rate_on
      · simp [specSdot, hs, hS hs]
      · simp
    have kW : st2.Wdot = specWdot probe mm m := by
      rw [hW2]
      cases hw : probe.mechanical_work_rate_on
      · simp [specWdot, hw, hW hw]
      · simp
    have hrec := ih st2
      (fun ha => by rw [kA]; simp [specAMdot, ha])
      (fun hs => by rw [kS]; simp [specSdot, hs])
      (fun hw => by rw [kW]; simp [specWdot, hw])
      hrest
    simp only [muscleLoop, hb, hrec, hE2, kA, kS, kW, List.map_cons, perMuscleEdot, hc,
      specEdot, List.append_assoc, List.singleton_append]

/-- The result of `computeProbeInputs`: the first failing check of the first parameter that
has one, and otherwise the one-element vector holding the sum of the per-muscle totals plus
the basal term. -/
theorem computeProbeInputs_result (pow : ℚ → ℚ → ℚ)
    (probe : MuscleMetabolicPowerProbeUmberger2003) (model : Model) :
    (computeProbeInputs pow probe model).result =
      match probe.MetabolicMuscleParameterSet.findSome? (firstFailingCheck model) with
      | some e => .error e
      | none =>
        .ok [(probe.MetabolicMuscleParameterSet.map (perMuscleEdot pow probe model)).sum +
          specBdot pow probe model] := by
  unfold computeProbeInputs
  simp only []
  rw [muscleLoop_thrown]
  cases h : probe.MetabolicMuscleParameterSet.findSome? (firstFailingCheck model) with
  | some e => simp
  | none =>
    simp only []
    rw [muscleLoop_Edot pow probe model _ _ (fun _ => rfl) (fun _ => rfl) (fun _ => rfl) h]
    simp [loopEntry, specBdot]

/-- The first failing check of a parameter that passes `checkValidMetabolicMuscle`: only
the two zero checks of the muscle loop remain. -/
theorem firstFailingCheck_of_ok (model : Model) (mm : MetabolicMuscleParameter) (m : Muscle)
    (hc : checkValidMetabolicMuscle model mm = .ok m) :
    firstFailingCheck model mm =
      if m.maxIsometricForce = 0 then some (.zeroMaxIsometricForce m.name)
      else if m.forceVelocityMultiplier = 0 then some (.zeroForceVelocityMultiplier m.name)
      else none := by
  rw [checkValidMetabolicMuscle_eq] at hc
  unfold firstFailingCheck
  cases hfind : model.muscles.find? (fun x => decide (x.name = mm.name)) with
  | none => simp [hfind] at hc
  | some x =>
    simp only [hfind] at hc ⊢
    split_ifs at hc with h1 h2
    have hx : x = m := by simpa using hc
    subst hx
    have h3 : 0 ≤ mm.ratioSlowTwitchFibers ∧ mm.ratioSlowTwitchFibers ≤ 1 := by
      push_neg at h2
      exact h2
    simp [h1, h3]

/-- A parameter with positive mass and a ratio in the unit interval resolves, in a model
with one muscle of that name, to that muscle. -/
theorem checkValidMetabolicMuscle_single (m : Muscle) (mass r sysMass : ℚ)
    (h1 : 0 < mass) (h2 : 0 ≤ r) (h3 : r ≤ 1) :
    checkValidMetabolicMuscle { muscles := [m], systemMass := sysMass }
      { name := m.name, muscleMass := mass, ratioSlowTwitchFibers := r } = .ok m := by
  rw [checkValidMetabolicMuscle_eq]
  simp [List.find?, not_le.2 h1, not_lt.2 h2, not_lt.2 h3]

/-- The per-muscle total does not read the basal flag or the parameter set of the probe. -/
theorem perMuscleEdot_congr (pow : ℚ → ℚ → ℚ)
    (probe probe2 : MuscleMetabolicPowerProbeUmberger2003) (model : Model)
    (h1 : probe2.activation_maintenance_rate_on = probe.activation_maintenance_rate_on)
    (h2 : probe2.shortening_rate_on = probe.shortening_rate_on)
    (h3 : probe2.mechanical_work_rate_on = probe.mechanical_work_rate_on)
    (h4 : probe2.scaling_factor = probe.scaling_factor) :
    perMuscleEdot pow probe2 model = perMuscleEdot pow probe model := by
  funext mm
  unfold perMuscleEdot
  cases checkValidMetabolicMuscle model mm with
  | error e => rfl
  | ok m => simp only [specEdot, specAMdot, specSdot, specWdot, h1, h2, h3, h4]

/-- The fixture parameter resolves to the fixture muscle. -/
theorem checkValidMetabolicMuscle_fixture (n : String) (sysMass : ℚ) :
    checkValidMetabolicMuscle (fixtureModel n sysMass) (fixtureParameter n) =
      .ok (fixtureMuscle n) :=
  checkValidMetabolicMuscle_single (fixtureMuscle n) 0.5 0.5 sysMass
    (by norm_num) (by norm_num) (by norm_num)

/-- No check fails for the fixture. -/
theorem firstFailingCheck_fixture (n : String) (sysMass : ℚ) :
    [fixtureParameter n].findSome? (firstFailingCheck (fixtureModel n sysMass)) = none := by
  rw [List.findSome?_eq_none_iff]
  intro mm hmm
  have hmm2 : mm = fixtureParameter n := by simpa using hmm
  subst hmm2
  rw [firstFailingCheck_of_ok _ _ _ (checkValidMetabolicMuscle_fixture n sysMass)]
  norm_num [fixtureMuscle]

/-- A parameter that passes `checkValidMetabolicMuscle` has a positive mass and a ratio
in the unit interval. -/
theorem checkValidMetabolicMuscle_bounds (model : Model) (mm : MetabolicMuscleParameter)
    (m : Muscle) (hc : checkValidMetabolicMuscle model mm = .ok m) :
    0 < mm.muscleMass ∧ 0 ≤ mm.ratioSlowTwitchFibers ∧ mm.ratioSlowTwitchFibers ≤ 1 := by
  rw [checkValidMetabolicMuscle_eq] at hc
  cases hfind : model.muscles.find? (fun x => decide (x.name = mm.name)) with
  | none => simp [hfind] at hc
  | some x =>
    simp only [hfind] at hc
    split_ifs at hc with h1 h2
    push_neg at h1 h2
    exact ⟨h1, h2.1, h2.2⟩

/-- The factor `1 + 1.5 * (1 - r)` is positive for a ratio `r` of at most 1. -/
theorem fiber_factor_pos (r : ℚ) (hr : r ≤ 1) : 0 < 1 + 1.5 * (1 - r) := by
  norm_num
  linarith

/-- For a ratio in the unit interval, a positive maximum contraction velocity and a
velocity that is not positive, neither concentric term is positive. -/
theorem concentric_terms_nonpos (vmax v r : ℚ) (hr0 : 0 ≤ r) (hr1 : r ≤ 1)
    (hvmax : 0 < vmax) (hv : v ≤ 0) :
    tmp_slowTwitch vmax v r ≤ 0 ∧ tmp_fastTwitch vmax v r ≤ 0 := by
  have hk := fiber_factor_pos r hr1
  have hslow : 0 < Vmax_slowtwitch vmax r := div_pos hvmax hk
  have hfast : 0 < Vmax_fasttwitch vmax r := by
    unfold Vmax_fasttwitch
    exact mul_pos (by norm_num) hslow
  constructor
  · unfold tmp_slowTwitch
    have h1 : 0 < 100 / Vmax_slowtwitch vmax r := div_pos (by norm_num) hslow
    have h2 : 100 / Vmax_slowtwitch vmax r * v ≤ 0 :=
      mul_nonpos_of_nonneg_of_nonpos h1.le hv
    exact mul_nonpos_of_nonpos_of_nonneg h2 hr0
  · unfold tmp_fastTwitch
    have h1 : 0 < 153 / Vmax_fasttwitch vmax r := div_pos (by norm_num) hfast
    have h2 : 153 / Vmax_fasttwitch vmax r * v ≤ 0 :=
      mul_nonpos_of_nonneg_of_nonpos h1.le hv
    exact mul_nonpos_of_nonpos_of_nonneg h2 (by linarith)

/-- The text an iteration that does not throw adds to `cout`: the negative-length warning
and the two clamp warnings, each under its condition, and nothing else. -/
theorem loopBody_cout (pow : ℚ → ℚ → ℚ) (probe : MuscleMetabolicPowerProbeUmberger2003)
    (model : Model) (mm : MetabolicMuscleParameter) (st : LoopState) (m : Muscle)
    (hc : checkValidMetabolicMuscle model mm = .ok m) (h1 : m.maxIsometricForce ≠ 0)
    (h2 : m.forceVelocityMultiplier ≠ 0) :
    ∃ st2, loopBody pow probe model mm st = .ok st2 ∧
      st2.cout = st.cout ++
        (if m.normalizedFiberLength < 0 then [Warning.negativeFiberLength m.name] else []) ++
        (if probe.shortening_rate_on = true ∧ m.normalizedFiberVelocity ≤ 0 ∧
            tmp_slowTwitch m.maxContractionVelocity m.normalizedFiberVelocity
              mm.ratioSlowTwitchFibers > 100
          then [Warning.slowTwitchExceedsMax probe.name] else []) ++
        (if probe.shortening_rate_on = true ∧ m.normalizedFiberVelocity ≤ 0 ∧
            tmp_fastTwitch m.maxContractionVelocity m.normalizedFiberVelocity
              mm.ratioSlowTwitchFibers > 100
          then [Warning.fastTwitchExceedsMax probe.name] else []) := by
  simp only [loopBody, hc, h1, h2, if_false, eqNaN, Bool.false_eq_true]
  refine ⟨_, rfl, ?_⟩
  simp only [tmp_slowTwitch, tmp_fastTwitch, Vmax_slowtwitch, Vmax_fasttwitch,
    apply_ite Prod.snd]
  cases hs : probe.shortening_rate_on
  · simp only [Bool.false_eq_true, false_and, if_false, List.append_nil]
    split_ifs <;> simp
  · by_cases hv : m.normalizedFiberVelocity ≤ 0
    · simp only [hv, if_true, true_and]
      split_ifs <;> simp
    · simp only [hv, false_and, and_false, if_false, List.append_nil]
      split_ifs <;> simp

/-- The shortening heat rate of a concentric contraction when neither term exceeds 100:
the scaled sum of the two terms, unclamped. -/
theorem specSdot_concentric (pow : ℚ → ℚ → ℚ) (probe : MuscleMetabolicPowerProbeUmberger2003)
    (mm : MetabolicMuscleParameter) (m : Muscle)
    (hs : probe.shortening_rate_on = true)
    (hv : m.normalizedFiberVelocity ≤ 0)
    (hslow : tmp_slowTwitch m.maxContractionVelocity m.normalizedFiberVelocity
      mm.ratioSlowTwitchFibers ≤ 0)
    (hfast : tmp_fastTwitch m.maxContractionVelocity m.normalizedFiberVelocity
      mm.ratioSlowTwitchFibers ≤ 0) :
    specSdot pow probe mm m =
      if m.normalizedFiberLength > 1 then
        probe.scaling_factor * pow (A m.control m.activation) 2 *
          (-(tmp_slowTwitch m.maxContractionVelocity m.normalizedFiberVelocity
              mm.ratioSlowTwitchFibers +
            tmp_fastTwitch m.maxContractionVelocity m.normalizedFiberVelocity
              mm.ratioSlowTwitchFibers)) *
          ((m.activeFiberForce / m.forceVelocityMultiplier) / m.maxIsometricForce)
      else
        probe.scaling_factor * pow (A m.control m.activation) 2 *
          (-(tmp_slowTwitch m.maxContractionVelocity m.normalizedFiberVelocity
              mm.ratioSlowTwitchFibers +
            tmp_fastTwitch m.maxContractionVelocity m.normalizedFiberVelocity
              mm.ratioSlowTwitchFibers)) := by
  have c1 : ¬ tmp_slowTwitch m.maxContractionVelocity m.normalizedFiberVelocity
      mm.ratioSlowTwitchFibers > 100 := by
    intro h; linarith
  have c2 : ¬ tmp_fastTwitch m.maxContractionVelocity m.normalizedFiberVelocity
      mm.ratioSlowTwitchFibers > 100 := by
    intro h; linarith
  simp only [tmp_slowTwitch, tmp_fastTwitch, Vmax_slowtwitch, Vmax_fasttwitch] at c1 c2
  simp only [specSdot, hs, if_true, hv, specClamp, c1, c2, if_false, specA, specFiso, A,
    tmp_slowTwitch, tmp_fastTwitch, Vmax_slowtwitch, Vmax_fasttwitch]

/-- An iteration that returns a state had no failing check. -/
theorem firstFailingCheck_of_loopBody_ok (pow : ℚ → ℚ → ℚ)
    (probe : MuscleMetabolicPowerProbeUmberger2003) (model : Model)
    (mm : MetabolicMuscleParameter) (st st2 : LoopState)
    (hb : loopBody pow probe model mm st = .ok st2) :
    firstFailingCheck model mm = none := by
  cases h : firstFailingCheck model mm with
  | none => rfl
  | some e =>
    have he := (loopBody_error_iff pow probe model mm st e).2 h
    rw [hb] at he
    cases he

/-- The muscle loop writes no not-a-number warning to `cout`. -/
theorem muscleLoop_cout_reportsNaN (pow : ℚ → ℚ → ℚ)
    (probe : MuscleMetabolicPowerProbeUmberger2003) (model : Model)
    (ps : List MetabolicMuscleParameter) (st : LoopState)
    (hst : ∀ w ∈ st.cout, reportsNaN w = false) :
    ∀ w ∈ (muscleLoop pow probe model ps st).1.cout, reportsNaN w = false := by
  induction ps generalizing st with
  | nil => simpa [muscleLoop] using hst
  | cons mm rest ih =>
    cases hb : loopBody pow probe model mm st with
    | error e => simpa [muscleLoop, hb] using hst
    | ok st2 =>
      simp only [muscleLoop, hb]
      apply ih st2
      have hnone := firstFailingCheck_of_loopBody_ok pow probe model mm st st2 hb
      obtain ⟨m, hc, h1, h2⟩ := firstFailingCheck_none model mm hnone
      obtain ⟨st3, hb3, hcout⟩ := loopBody_cout pow probe model mm st m hc h1 h2
      have h23 : st3 = st2 := Except.ok.inj (hb3.symm.trans hb)
      subst h23
      intro w hw
      rw [hcout] at hw
      simp only [List.mem_append] at hw
      rcases hw with ((hw | hw) | hw) | hw
      · exact hst w hw
      · split_ifs at hw
        · simp only [List.mem_singleton] at hw
          subst hw
          rfl
        · cases hw
      · split_ifs at hw
        · simp only [List.mem_singleton] at hw
          subst hw
          rfl
        · cases hw
      · split_ifs at hw
        · simp only [List.mem_singleton] at hw
          subst hw
          rfl
        · cases hw

/-- The shortening heat rate of an eccentric contraction. -/
theorem specSdot_eccentric (pow : ℚ → ℚ → ℚ) (probe : MuscleMetabolicPowerProbeUmberger2003)
    (mm : MetabolicMuscleParameter) (m : Muscle)
    (hs : probe.shortening_rate_on = true)
    (hv : 0 < m.normalizedFiberVelocity) :
    specSdot pow probe mm m =
      if m.normalizedFiberLength > 1 then
        probe.scaling_factor * A m.control m.activation *
          (-0.3 * (100 / Vmax_slowtwitch m.maxContractionVelocity mm.ratioSlowTwitchFibers) *
            m.normalizedFiberVelocity) *
          ((m.activeFiberForce / m.forceVelocityMultiplier) / m.maxIsometricForce)
      else
        probe.scaling_factor * A m.control m.activation *
          (-0.3 * (100 / Vmax_slowtwitch m.maxContractionVelocity mm.ratioSlowTwitchFibers) *
            m.normalizedFiberVelocity) := by
  have hv2 : ¬ m.normalizedFiberVelocity ≤ 0 := not_le.2 hv
  simp only [specSdot, hs, if_true, hv2, if_false, specA, specFiso, A, Vmax_slowtwitch]

/-- The parameter `A` is not negative when excitation and activation are not. -/
theorem A_nonneg (e a : ℚ) (he : 0 ≤ e) (ha : 0 ≤ a) : 0 ≤ A e a := by
  unfold A
  split_ifs
  · exact he
  · linarith

/-- The value of `roundToDouble` at a rational of exponent `e`. -/
theorem roundToDouble_eq (x : ℚ) (e n : ℤ) (he : -1022 ≤ e)
    (h1 : (2 : ℚ) ^ e ≤ |x|) (h2 : |x| < (2 : ℚ) ^ (e + 1))
    (hn : IEEE.roundHalfEven (x / 2 ^ (e - 52)) = n) :
    IEEE.roundToDouble x = n * 2 ^ (e - 52) := by
  have hpos : (0 : ℚ) < |x| := lt_of_lt_of_le (zpow_pos (by norm_num) e) h1
  have hx : x ≠ 0 := abs_pos.1 hpos
  have hlog : Int.log 2 |x| = e := by
    have a1 : e ≤ Int.log 2 |x| :=
      (Int.zpow_le_iff_le_log (by norm_num) hpos).1 (by exact_mod_cast h1)
    have a2 : Int.log 2 |x| < e + 1 :=
      (Int.lt_zpow_iff_log_lt (by norm_num) hpos).1 (by exact_mod_cast h2)
    omega
  simp only [IEEE.roundToDouble, hx, if_false, hlog, max_eq_left he, hn]

/-- The muscle sum of one entry in `double` arithmetic. -/
theorem sum_one (a : ℚ) : IEEE.sum [a] = IEEE.fadd 0 a := by
  simp only [IEEE.sum, List.foldl_cons, List.foldl_nil]

/-- The muscle sum of two entries in `double` arithmetic. -/
theorem sum_two (a b : ℚ) : IEEE.sum [a, b] = IEEE.fadd (IEEE.fadd 0 a) b := by
  simp only [IEEE.sum, List.foldl_cons, List.foldl_nil]

/-- The muscle sum of three entries in `double` arithmetic. -/
theorem sum_three (a b c : ℚ) :
    IEEE.sum [a, b, c] = IEEE.fadd (IEEE.fadd (IEEE.fadd 0 a) b) c := by
  simp only [IEEE.sum, List.foldl_cons, List.foldl_nil]

/-- The total of one muscle in `double` arithmetic. -/
theorem Edot_eq (a b c : ℚ) : IEEE.Edot a b c = IEEE.fadd (IEEE.fadd a b) c := rfl

/-- Adding 0 to 1 in `double` arithmetic gives 1. -/
theorem fadd_zero_one : IEEE.fadd 0 1 = 1 := by
  unfold IEEE.fadd
  rw [roundToDouble_eq _ 0 (2 ^ 52) (by norm_num) (by norm_num [abs_of_pos])
    (by norm_num [abs_of_pos]) (by norm_num [IEEE.roundHalfEven])]
  norm_num

/-- Adding `2 ^ -53` to 1 in `double` arithmetic gives 1: the exact sum lies halfway
between 1 and `1 + 2 ^ -52`, and 1 has the even significand. -/
theorem fadd_one_half_ulp : IEEE.fadd 1 (2 ^ (-53 : ℤ)) = 1 := by
  unfold IEEE.fadd
  rw [roundToDouble_eq _ 0 (2 ^ 52) (by norm_num) (by norm_num [abs_of_pos])
    (by norm_num [abs_of_pos]) (by norm_num [IEEE.roundHalfEven])]
  norm_num

/-- Adding `2 ^ -52` to 1 in `double` arithmetic is exact. -/
theorem fadd_one_ulp : IEEE.fadd 1 (2 ^ (-52 : ℤ)) = 1 + 2 ^ (-52 : ℤ) := by
  unfold IEEE.fadd
  rw [roundToDouble_eq _ 0 (2 ^ 52 + 1) (by norm_num) (by norm_num [abs_of_pos])
    (by norm_num [abs_of_pos]) (by norm_num [IEEE.roundHalfEven])]
  norm_num

/-- Adding `2 ^ -53` to 0 in `double` arithmetic is exact. -/
theorem fadd_zero_half_ulp : IEEE.fadd 0 (2 ^ (-53 : ℤ)) = 2 ^ (-53 : ℤ) := by
  unfold IEEE.fadd
  rw [roundToDouble_eq _ (-53) (2 ^ 52) (by norm_num) (by norm_num [abs_of_pos])
    (by norm_num [abs_of_pos]) (by norm_num [IEEE.roundHalfEven])]
  norm_num

/-- Adding `2 ^ -53` to itself in `double` arithmetic is exact. -/
theorem fadd_half_ulp_twice : IEEE.fadd (2 ^ (-53 : ℤ)) (2 ^ (-53 : ℤ)) = 2 ^ (-52 : ℤ) := by
  unfold IEEE.fadd
  rw [roundToDouble_eq _ (-52) (2 ^ 52) (by norm_num) (by norm_num [abs_of_pos])
    (by norm_num [abs_of_pos]) (by norm_num [IEEE.roundHalfEven])]
  norm_num

/-- Adding 0 to 0 in `double` arithmetic gives 0. -/
theorem fadd_zero_zero : IEEE.fadd 0 0 = 0 := by
  simp [IEEE.fadd, IEEE.roundToDouble]

/-- On rational scalars `checkValidMetabolicMuscle` returns a muscle exactly when the name
of the parameter is the name of a muscle of the model, the muscle mass is strictly
positive and the slow-twitch ratio lies in the closed unit interval; it throws exactly
when one of these fails; and a returned muscle is a muscle of the model carrying the name
of the parameter. -/
theorem checkValidMetabolicMuscle_ok_iff (model : Model)
    (mm : MetabolicMuscleParameter) :
    ((∃ m, checkValidMetabolicMuscle model mm = .ok m) ↔
      ((∃ m ∈ model.muscles, m.name = mm.name) ∧ 0 < mm.muscleMass ∧
        0 ≤ mm.ratioSlowTwitchFibers ∧ mm.ratioSlowTwitchFibers ≤ 1)) ∧
    ((∃ e, checkValidMetabolicMuscle model mm = .error e) ↔
      ¬ ((∃ m ∈ model.muscles, m.name = mm.name) ∧ 0 < mm.muscleMass ∧
        0 ≤ mm.ratioSlowTwitchFibers ∧ mm.ratioSlowTwitchFibers ≤ 1)) ∧
    (∀ m, checkValidMetabolicMuscle model mm = .ok m →
      m ∈ model.muscles ∧ m.name = mm.name) := by
  rw [checkValidMetabolicMuscle_eq]
  cases hfind : model.muscles.find? (fun x => decide (x.name = mm.name)) with
  | none =>
    have hno : ¬ ∃ m ∈ model.muscles, m.name = mm.name := by
      rintro ⟨m, hm, hname⟩
      have := (List.find?_eq_none.1 hfind) m hm
      simp [hname] at this
    simp [hno]
  | some x =>
    have hmem : x ∈ model.muscles := List.mem_of_find?_eq_some hfind
    have hname : x.name = mm.name := by simpa using List.find?_some hfind
    have hex : ∃ m ∈ model.muscles, m.name = mm.name := ⟨x, hmem, hname⟩
    by_cases h1 : mm.muscleMass ≤ 0
    · have h1n : ¬ 0 < mm.muscleMass := not_lt.2 h1
      simp [h1, h1n]
    · have h1p : 0 < mm.muscleMass := lt_of_not_ge h1
      by_cases h2 : mm.ratioSlowTwitchFibers < 0 ∨ mm.ratioSlowTwitchFibers > 1
      · have h3 : ¬ (0 ≤ mm.ratioSlowTwitchFibers ∧ mm.ratioSlowTwitchFibers ≤ 1) := by
          rintro ⟨h4, h5⟩
          rcases h2 with h2 | h2 <;> linarith
        simp only [h1, h2, if_true, if_false, h1p, true_and]
        refine ⟨?_, ?_, ?_⟩
        · constructor
          · rintro ⟨m, hm⟩; cases hm
          · intro h; exact absurd h.2 h3
        · constructor
          · intro _ h; exact h3 h.2
          · intro _; exact ⟨_, rfl⟩
        · intro m hm; cases hm
      · have h3 : 0 ≤ mm.ratioSlowTwitchFibers ∧ mm.ratioSlowTwitchFibers ≤ 1 := by
          push_neg at h2
          exact h2
        simp only [h1, h2, if_false, h1p, true_and]
        refine ⟨?_, ?_, ?_⟩
        · constructor
          · intro _; exact ⟨hex, h3⟩
          · intro _; exact ⟨x, rfl⟩
        · constructor
          · rintro ⟨e, he⟩; cases he
          · intro h; exact absurd ⟨hex, h3⟩ h
        · intro m hm
          have hx : x = m := by simpa using hm
          subst hx
          exact ⟨hmem, hname⟩

/-- C1, at two failing inputs and in general. In `double` arithmetic a parameter whose
muscle mass is not-a-number, and one whose slow-twitch ratio is not-a-number, pass
`checkValidMetabolicMuscle` for a muscle of the model, although the mass is not greater
than 0 and the ratio is not in the unit interval: each of the three comparisons of the code
is false at not-a-number. In general the method returns a muscle exactly when the name is
the name of a muscle of the model and the three comparisons are false; when neither
property is not-a-number that is the condition of the claim (mass greater than 0, ratio
between 0 and 1); and on finite values the method is the one over rational scalars. -/
theorem C1_NaN_passes_checkValidMetabolicMuscle :
    IEEE.checkValidMetabolicMuscle (fixtureModel "soleus" 70)
      { name := "soleus", muscleMass := .nan, ratioSlowTwitchFibers := .finite 0.5 } =
        .ok (fixtureMuscle "soleus") ∧
    IEEE.checkValidMetabolicMuscle (fixtureModel "soleus" 70)
      { name := "soleus", muscleMass := .finite 0.5, ratioSlowTwitchFibers := .nan } =
        .ok (fixtureMuscle "soleus") ∧
    IEEE.Double.gt .nan (.finite 0) = false ∧
    (IEEE.Double.le (.finite 0) .nan && IEEE.Double.le .nan (.finite 1)) = false ∧
    (∀ (model : Model) (mm : IEEE.MetabolicMuscleParameter),
      (∃ m, IEEE.checkValidMetabolicMuscle model mm = .ok m) ↔
        ((∃ m ∈ model.muscles, m.name = mm.name) ∧
          IEEE.Double.le mm.muscleMass (.finite 0) = false ∧
          IEEE.Double.lt mm.ratioSlowTwitchFibers (.finite 0) = false ∧
          IEEE.Double.gt mm.ratioSlowTwitchFibers (.finite 1) = false)) ∧
    (∀ (model : Model) (mm : IEEE.MetabolicMuscleParameter),
      mm.muscleMass ≠ .nan → mm.ratioSlowTwitchFibers ≠ .nan →
      ((∃ m, IEEE.checkValidMetabolicMuscle model mm = .ok m) ↔
        ((∃ m ∈ model.muscles, m.name = mm.name) ∧
          IEEE.Double.gt mm.muscleMass (.finite 0) = true ∧
          IEEE.Double.le (.finite 0) mm.ratioSlowTwitchFibers = true ∧
          IEEE.Double.le mm.ratioSlowTwitchFibers (.finite 1) = true))) ∧
    (∀ (model : Model) (n : String) (mass r : ℚ),
      IEEE.checkValidMetabolicMuscle model
        { name := n, muscleMass := .finite mass, ratioSlowTwitchFibers := .finite r } =
      checkValidMetabolicMuscle model
        { name := n, muscleMass := mass, ratioSlowTwitchFibers := r }) := by
  have hgen : ∀ (model : Model) (mm : IEEE.MetabolicMuscleParameter),
      (∃ m, IEEE.checkValidMetabolicMuscle model mm = .ok m) ↔
        ((∃ m ∈ model.muscles, m.name = mm.name) ∧
          IEEE.Double.le mm.muscleMass (.finite 0) = false ∧
          IEEE.Double.lt mm.ratioSlowTwitchFibers (.finite 0) = false ∧
          IEEE.Double.gt mm.ratioSlowTwitchFibers (.finite 1) = false) := by
    intro model mm
    unfold IEEE.checkValidMetabolicMuscle
    by_cases hk : getIndex model.muscles mm.name < 0
    · have hno := (getIndex_neg_iff model.muscles mm.name).1 hk
      simp only [hk, if_true]
      constructor
      · rintro ⟨m, hm⟩; cases hm
      · rintro ⟨⟨m, hm, hname⟩, -⟩; exact absurd hname (hno m hm)
    · obtain ⟨x, hget, hfind⟩ := get_getIndex _ _ hk
      have hmem : x ∈ model.muscles := List.mem_of_find?_eq_some hfind
      have hname : x.name = mm.name := by simpa using List.find?_some hfind
      simp only [hk, if_false, hget]
      cases h1 : IEEE.Double.le mm.muscleMass (.finite 0) <;>
        cases h2 : IEEE.Double.lt mm.ratioSlowTwitchFibers (.finite 0) <;>
        cases h3 : IEEE.Double.gt mm.ratioSlowTwitchFibers (.finite 1) <;>
        simp
      exact ⟨x, hmem, hname⟩
  have hfin : ∀ (model : Model) (n : String) (mass r : ℚ),
      IEEE.checkValidMetabolicMuscle model
        { name := n, muscleMass := .finite mass, ratioSlowTwitchFibers := .finite r } =
      checkValidMetabolicMuscle model
        { name := n, muscleMass := mass, ratioSlowTwitchFibers := r } := by
    intro model n mass r
    simp only [IEEE.checkValidMetabolicMuscle, checkValidMetabolicMuscle, IEEE.Double.le,
      IEEE.Double.lt, IEEE.Double.gt, decide_eq_true_eq, Bool.or_eq_true, gt_iff_lt]
  have hfix : ∃ m ∈ (fixtureModel "soleus" 70).muscles, m.name = "soleus" :=
    ⟨fixtureMuscle "soleus", by simp [fixtureModel], rfl⟩
  have hone : ∀ mm : IEEE.MetabolicMuscleParameter, mm.name = "soleus" →
      ∀ m, IEEE.checkValidMetabolicMuscle (fixtureModel "soleus" 70) mm = .ok m →
        IEEE.checkValidMetabolicMuscle (fixtureModel "soleus" 70) mm =
          .ok (fixtureMuscle "soleus") := by
    intro mm hn m hm
    have hk : ¬ getIndex (fixtureModel "soleus" 70).muscles mm.name < 0 := by
      rw [hn]
      simp [fixtureModel, getIndex, fixtureMuscle]
    have hg : get (fixtureModel "soleus" 70).muscles
        (getIndex (fixtureModel "soleus" 70).muscles mm.name) =
          .ok (fixtureMuscle "soleus") := by
      rw [hn]
      simp [fixtureModel, getIndex, fixtureMuscle, get]
    rw [hm]
    simp only [IEEE.checkValidMetabolicMuscle, hk, if_false, hg] at hm
    split_ifs at hm
    exact hm.symm
  refine ⟨?_, ?_, rfl, rfl, hgen, ?_, hfin⟩
  · obtain ⟨m, hm⟩ := (hgen (fixtureModel "soleus" 70)
      { name := "soleus", muscleMass := .nan, ratioSlowTwitchFibers := .finite 0.5 }).2
      ⟨hfix, rfl, by norm_num [IEEE.Double.lt], by norm_num [IEEE.Double.gt, IEEE.Double.lt]⟩
    exact hone _ rfl m hm
  · obtain ⟨m, hm⟩ := (hgen (fixtureModel "soleus" 70)
      { name := "soleus", muscleMass := .finite 0.5, ratioSlowTwitchFibers := .nan }).2
      ⟨hfix, by norm_num [IEEE.Double.le], rfl, rfl⟩
    exact hone _ rfl m hm
  · intro model mm hm hr
    rw [hgen model mm]
    have e1 : IEEE.Double.le mm.muscleMass (.finite 0) = false ↔
        IEEE.Double.gt mm.muscleMass (.finite 0) = true := by
      cases hmm : mm.muscleMass with
      | nan => exact absurd hmm hm
      | negInf => simp [IEEE.Double.le, IEEE.Double.gt, IEEE.Double.lt]
      | posInf => simp [IEEE.Double.le, IEEE.Double.gt, IEEE.Double.lt]
      | finite q => simp [IEEE.Double.le, IEEE.Double.gt, IEEE.Double.lt]
    have e2 : IEEE.Double.lt mm.ratioSlowTwitchFibers (.finite 0) = false ↔
        IEEE.Double.le (.finite 0) mm.ratioSlowTwitchFibers = true := by
      cases hrr : mm.ratioSlowTwitchFibers with
      | nan => exact absurd hrr hr
      | negInf => simp [IEEE.Double.le, IEEE.Double.lt]
      | posInf => simp [IEEE.Double.le, IEEE.Double.lt]
      | finite q => simp [IEEE.Double.le, IEEE.Double.lt]
    have e3 : IEEE.Double.gt mm.ratioSlowTwitchFibers (.finite 1) = false ↔
        IEEE.Double.le mm.ratioSlowTwitchFibers (.finite 1) = true := by
      cases hrr : mm.ratioSlowTwitchFibers with
      | nan => exact absurd hrr hr
      | negInf => simp [IEEE.Double.le, IEEE.Double.gt, IEEE.Double.lt]
      | posInf => simp [IEEE.Double.le, IEEE.Double.gt, IEEE.Double.lt]
      | finite q => simp [IEEE.Double.le, IEEE.Double.gt, IEEE.Double.lt]
    rw [e1, e2, e3]

/-- C2: for every configuration, when every parameter of the set passes
`checkValidMetabolicMuscle` and some parameter resolves to a muscle whose maximum isometric
force or force-velocity multiplier is zero, `computeProbeInputs` throws one of the two zero
exceptions and returns no vector. -/
theorem C2_zero_denominator_throws (pow : ℚ → ℚ → ℚ)
    (probe : MuscleMetabolicPowerProbeUmberger2003) (model : Model)
    (hvalid : ∀ mm ∈ probe.MetabolicMuscleParameterSet,
      ∃ m, checkValidMetabolicMuscle model mm = .ok m)
    (hzero : ∃ mm ∈ probe.MetabolicMuscleParameterSet, ∃ m,
      checkValidMetabolicMuscle model mm = .ok m ∧
        (m.maxIsometricForce = 0 ∨ m.forceVelocityMultiplier = 0)) :
    ∃ e, (computeProbeInputs pow probe model).result = .error e ∧
      ∃ n, e = .zeroMaxIsometricForce n ∨ e = .zeroForceVelocityMultiplier n := by
  rw [computeProbeInputs_result]
  cases h : probe.MetabolicMuscleParameterSet.findSome? (firstFailingCheck model) with
  | none =>
    exfalso
    obtain ⟨mm, hmm, m, hc, hz⟩ := hzero
    have h0 := (List.findSome?_eq_none_iff.1 h) mm hmm
    rw [firstFailingCheck_of_ok model mm m hc] at h0
    rcases hz with hz | hz
    · simp [hz] at h0
    · by_cases h1 : m.maxIsometricForce = 0
      · simp [h1] at h0
      · simp [h1, hz] at h0
  | some e =>
    refine ⟨e, rfl, ?_⟩
    obtain ⟨mm, hmm, he⟩ := List.exists_of_findSome?_eq_some h
    obtain ⟨m, hc⟩ := hvalid mm hmm
    rw [firstFailingCheck_of_ok model mm m hc] at he
    split_ifs at he with h1 h2
    · exact ⟨m.name, Or.inl (by simpa using he.symm)⟩
    · exact ⟨m.name, Or.inr (by simpa using he.symm)⟩

/-- C2 at the fixture with the force-velocity multiplier of the muscle set to zero. -/
theorem C2_zero_denominator_throws_witness :
    ∃ e, (computeProbeInputs powStandIn (fixtureProbe "probe" "soleus" 1.51 1)
        { muscles := [{ fixtureMuscle "soleus" with forceVelocityMultiplier := 0 }],
          systemMass := 70 }).result = .error e ∧
      ∃ n, e = .zeroMaxIsometricForce n ∨ e = .zeroForceVelocityMultiplier n :=
  C2_zero_denominator_throws powStandIn (fixtureProbe "probe" "soleus" 1.51 1)
    { muscles := [{ fixtureMuscle "soleus" with forceVelocityMultiplier := 0 }],
      systemMass := 70 }
    (by
      intro mm hmm
      have hmm2 : mm = fixtureParameter "soleus" := by simpa [fixtureProbe] using hmm
      subst hmm2
      exact ⟨_, checkValidMetabolicMuscle_single
        { fixtureMuscle "soleus" with forceVelocityMultiplier := 0 } 0.5 0.5 70
        (by norm_num) (by norm_num) (by norm_num)⟩)
    ⟨fixtureParameter "soleus", by simp [fixtureProbe], _,
      checkValidMetabolicMuscle_single
        { fixtureMuscle "soleus" with forceVelocityMultiplier := 0 } 0.5 0.5 70
        (by norm_num) (by norm_num) (by norm_num), Or.inr rfl⟩

/-- C3, as stated, fails: with all four terms disabled and a parameter that names no muscle
of the model, `computeProbeInputs` throws and returns no vector. -/
theorem C3_all_disabled_counterexample :
    allOffProbe.activation_maintenance_rate_on = false ∧
    allOffProbe.shortening_rate_on = false ∧
    allOffProbe.basal_rate_on = false ∧
    allOffProbe.mechanical_work_rate_on = false ∧
    (computeProbeInputs powStandIn allOffProbe emptyModel).result =
      .error (.invalidMuscle "soleus") ∧
    (computeProbeInputs powStandIn allOffProbe emptyModel).result ≠ .ok [0] := by
  have h : (computeProbeInputs powStandIn allOffProbe emptyModel).result =
      .error (.invalidMuscle "soleus") := rfl
  refine ⟨rfl, rfl, rfl, rfl, h, ?_⟩
  rw [h]
  intro hne
  cases hne

/-- C3, amended: with all four terms disabled, every vector that `computeProbeInputs`
returns is exactly `[0]`, and it does return `[0]` whenever every parameter passes
`checkValidMetabolicMuscle` and resolves to a muscle with nonzero maximum isometric force
and force-velocity multiplier; this for every system mass, scaling factor and basal
property. -/
theorem C3_all_disabled_returns_zero (pow : ℚ → ℚ → ℚ)
    (probe : MuscleMetabolicPowerProbeUmberger2003) (model : Model)
    (hAM : probe.activation_maintenance_rate_on = false)
    (hS : probe.shortening_rate_on = false)
    (hB : probe.basal_rate_on = false)
    (hW : probe.mechanical_work_rate_on = false) :
    (∀ v, (computeProbeInputs pow probe model).result = .ok v → v = [0]) ∧
    ((∀ mm ∈ probe.MetabolicMuscleParameterSet, ∃ m,
        checkValidMetabolicMuscle model mm = .ok m ∧ m.maxIsometricForce ≠ 0 ∧
          m.forceVelocityMultiplier ≠ 0) →
      (computeProbeInputs pow probe model).result = .ok [0]) := by
  have hzero : ∀ ps : List MetabolicMuscleParameter,
      (ps.map (perMuscleEdot pow probe model)).sum = 0 := by
    intro ps
    induction ps with
    | nil => simp
    | cons mm rest ih =>
      have h0 : perMuscleEdot pow probe model mm = 0 := by
        unfold perMuscleEdot
        cases checkValidMetabolicMuscle model mm with
        | error e => rfl
        | ok m => simp [specEdot, specAMdot, specSdot, specWdot, hAM, hS, hW]
      simp [h0, ih]
  have hB0 : specBdot pow probe model = 0 := by simp [specBdot, hB]
  rw [computeProbeInputs_result, hzero, hB0]
  constructor
  · intro v hv
    cases h : probe.MetabolicMuscleParameterSet.findSome? (firstFailingCheck model) with
    | some e => simp [h] at hv
    | none =>
      simp only [h, add_zero] at hv
      exact (Except.ok.inj hv).symm
  · intro hok
    have h : probe.MetabolicMuscleParameterSet.findSome? (firstFailingCheck model) = none := by
      rw [List.findSome?_eq_none_iff]
      intro mm hmm
      obtain ⟨m, hc, h1, h2⟩ := hok mm hmm
      rw [firstFailingCheck_of_ok model mm m hc]
      simp [h1, h2]
    simp [h]

/-- C3 (amended) at the fixture muscle and parameter with every term disabled. -/
theorem C3_all_disabled_returns_zero_witness :
    (computeProbeInputs powStandIn
      { allOffProbe with MetabolicMuscleParameterSet := [fixtureParameter "soleus"] }
      (fixtureModel "soleus" 70)).result = .ok [0] :=
  (C3_all_disabled_returns_zero powStandIn
    { allOffProbe with MetabolicMuscleParameterSet := [fixtureParameter "soleus"] }
    (fixtureModel "soleus" 70) rfl rfl rfl rfl).2
    (by
      intro mm hmm
      have hmm2 : mm = fixtureParameter "soleus" := by simpa using hmm
      subst hmm2
      exact ⟨_, checkValidMetabolicMuscle_single (fixtureMuscle "soleus") 0.5 0.5 70
        (by norm_num) (by norm_num) (by norm_num),
        by norm_num [fixtureMuscle], by norm_num [fixtureMuscle]⟩)

/-- C4: for an empty parameter set with the basal term enabled, `computeProbeInputs`
returns the one-element vector holding `basal_coefficient * pow(systemMass, basal_exponent)`,
whatever the other three flags and the scaling factor are; and with coefficient 1.51,
exponent 1.0 and system mass 70 that value is 105.7, given that `pow(70, 1)` is 70. -/
theorem C4_empty_set_basal (pow : ℚ → ℚ → ℚ)
    (probe : MuscleMetabolicPowerProbeUmberger2003) (model : Model)
    (hempty : probe.MetabolicMuscleParameterSet = [])
    (hB : probe.basal_rate_on = true) :
    (computeProbeInputs pow probe model).result =
      .ok [probe.basal_coefficient * pow model.systemMass probe.basal_exponent] ∧
    (probe.basal_coefficient = 1.51 → probe.basal_exponent = 1.0 → model.systemMass = 70 →
      pow 70 1 = 70 → (computeProbeInputs pow probe model).result = .ok [105.7]) := by
  have h : (computeProbeInputs pow probe model).result =
      .ok [probe.basal_coefficient * pow model.systemMass probe.basal_exponent] := by
    rw [computeProbeInputs_result, hempty]
    simp [specBdot, hB]
  refine ⟨h, ?_⟩
  intro hc he hm hp
  have e1 : (1.0 : ℚ) = 1 := by norm_num
  rw [h, hc, he, hm, e1, hp]
  norm_num

/-- C4 at the default properties of `constructProperties` and a system mass of 70. -/
theorem C4_empty_set_basal_witness :
    (computeProbeInputs powStandIn (constructProperties "probe") emptyModel).result =
      .ok [105.7] :=
  (C4_empty_set_basal powStandIn (constructProperties "probe") emptyModel rfl rfl).2
    rfl rfl rfl (by norm_num [powStandIn])

/-- C5: the basal term is added once, whatever the number of muscles. Whenever
`computeProbeInputs` returns a vector, the call with the basal flag cleared returns the sum
over the parameter set of the per-muscle totals `AMdot + Sdot + Wdot`, and the call with the
basal flag set returns that sum plus `basal_coefficient * pow(systemMass, basal_exponent)`. -/
theorem C5_basal_added_once (pow : ℚ → ℚ → ℚ)
    (probe : MuscleMetabolicPowerProbeUmberger2003) (model : Model)
    (hok : ∃ v, (computeProbeInputs pow probe model).result = .ok v) :
    (computeProbeInputs pow { probe with basal_rate_on := false } model).result =
      .ok [(probe.MetabolicMuscleParameterSet.map (fun mm =>
        match checkValidMetabolicMuscle model mm with
        | .ok m => specAMdot pow probe mm m + specSdot pow probe mm m + specWdot probe mm m
        | .error _ => 0)).sum] ∧
    (computeProbeInputs pow { probe with basal_rate_on := true } model).result =
      .ok [(probe.MetabolicMuscleParameterSet.map (fun mm =>
        match checkValidMetabolicMuscle model mm with
        | .ok m => specAMdot pow probe mm m + specSdot pow probe mm m + specWdot probe mm m
        | .error _ => 0)).sum +
        probe.basal_coefficient * pow model.systemMass probe.basal_exponent] := by
  have hnone : probe.MetabolicMuscleParameterSet.findSome? (firstFailingCheck model) = none := by
    obtain ⟨v, hv⟩ := hok
    rw [computeProbeInputs_result] at hv
    cases h : probe.MetabolicMuscleParameterSet.findSome? (firstFailingCheck model) with
    | none => rfl
    | some e => simp [h] at hv
  have hfun : (fun mm =>
      match checkValidMetabolicMuscle model mm with
      | .ok m => specAMdot pow probe mm m + specSdot pow probe mm m + specWdot probe mm m
      | .error _ => 0) = perMuscleEdot pow probe model := by
    funext mm
    unfold perMuscleEdot specEdot
    rfl
  rw [hfun]
  constructor
  · rw [computeProbeInputs_result]
    simp only [hnone]
    rw [perMuscleEdot_congr pow probe { probe with basal_rate_on := false } model
      rfl rfl rfl rfl]
    simp [specBdot]
  · rw [computeProbeInputs_result]
    simp only [hnone]
    rw [perMuscleEdot_congr pow probe { probe with basal_rate_on := true } model
      rfl rfl rfl rfl]
    simp [specBdot]

/-- C5 at the fixture, whose muscle sum is `100.45136 + 89 * 0.8747` with the stand-in
for `pow`, and a basal term of `1.51 * 70`. -/
theorem C5_basal_added_once_witness :
    (computeProbeInputs powStandIn
      { fixtureProbe "probe" "soleus" 1.51 1 with basal_rate_on := false }
      (fixtureModel "soleus" 70)).result = .ok [8914983 / 50000] ∧
    (computeProbeInputs powStandIn
      { fixtureProbe "probe" "soleus" 1.51 1 with basal_rate_on := true }
      (fixtureModel "soleus" 70)).result = .ok [8914983 / 50000 + 1.51 * 70] := by
  have h := C5_basal_added_once powStandIn (fixtureProbe "probe" "soleus" 1.51 1)
    (fixtureModel "soleus" 70)
    ⟨_, by rw [computeProbeInputs_result]; simp only [fixtureProbe, firstFailingCheck_fixture]; rfl⟩
  have hc := checkValidMetabolicMuscle_fixture "soleus" 70
  simp only [fixtureProbe, List.map_cons, List.map_nil, hc] at h
  refine ⟨h.1.trans ?_, h.2.trans ?_⟩ <;>
    norm_num [specAMdot, specSdot, specWdot, specA, specFiso, specClamp, fixtureMuscle,
      fixtureParameter, fixtureModel, powStandIn]

/-- C6: in an iteration of the muscle loop with the activation-maintenance term enabled,
for a parameter with slow-twitch ratio 1 that resolves to a muscle with excitation and
activation 1, normalized fiber length at most 1 and nonzero maximum isometric force and
force-velocity multiplier, the iteration stores `AMdot = scaling_factor * 25`, given that
`pow(1, 0.6)` is 1; no other muscle value, no mass and no earlier loop state enters. -/
theorem C6_AMdot_slow_twitch_full_activation (pow : ℚ → ℚ → ℚ)
    (probe : MuscleMetabolicPowerProbeUmberger2003) (model : Model)
    (mm : MetabolicMuscleParameter) (m : Muscle) (st : LoopState)
    (hpow : pow 1 0.6 = 1)
    (hon : probe.activation_maintenance_rate_on = true)
    (hc : checkValidMetabolicMuscle model mm = .ok m)
    (hr : mm.ratioSlowTwitchFibers = 1)
    (he : m.control = 1) (ha : m.activation = 1)
    (hl : m.normalizedFiberLength ≤ 1)
    (h1 : m.maxIsometricForce ≠ 0) (h2 : m.forceVelocityMultiplier ≠ 0) :
    ∃ st2, loopBody pow probe model mm st = .ok st2 ∧
      st2.AMdot = probe.scaling_factor * 25 := by
  obtain ⟨st2, hb, hA, -⟩ := loopBody_ok pow probe model mm st m hc h1 h2
  refine ⟨st2, hb, ?_⟩
  have hA1 : specA m = 1 := by
    simp only [specA, he, ha]
    norm_num
  rw [hA]
  simp only [hon, if_true, specAMdot, hl, hA1, hpow, hr]
  norm_num

/-- C6 at the fixture muscle with excitation and activation 1 and a parameter with
slow-twitch ratio 1, for a scaling factor of 3. -/
theorem C6_AMdot_slow_twitch_full_activation_witness :
    ∃ st2, loopBody powStandIn
        { fixtureProbe "probe" "soleus" 1.51 1 with scaling_factor := 3 }
        { muscles := [{ fixtureMuscle "soleus" with activation := 1, control := 1 }],
          systemMass := 70 }
        { name := "soleus", muscleMass := 0.5, ratioSlowTwitchFibers := 1 }
        (loopEntry []) = .ok st2 ∧
      st2.AMdot = 3 * 25 :=
  C6_AMdot_slow_twitch_full_activation powStandIn
    { fixtureProbe "probe" "soleus" 1.51 1 with scaling_factor := 3 }
    { muscles := [{ fixtureMuscle "soleus" with activation := 1, control := 1 }],
      systemMass := 70 }
    { name := "soleus", muscleMass := 0.5, ratioSlowTwitchFibers := 1 }
    { fixtureMuscle "soleus" with activation := 1, control := 1 }
    (loopEntry [])
    (by norm_num [powStandIn]) rfl
    (checkValidMetabolicMuscle_single
      { fixtureMuscle "soleus" with activation := 1, control := 1 } 0.5 1 70
      (by norm_num) (by norm_num) (by norm_num))
    rfl rfl rfl (by norm_num [fixtureMuscle]) (by norm_num [fixtureMuscle])
    (by norm_num [fixtureMuscle])

/-- C7: the end-to-end fixture. Given that `pow(0.8, 2)` is 0.64, the one iteration of the
muscle loop stores `AMdot = 89 * pow(0.8, 0.6)`, `Sdot = 0.64 * 0.70525 = 0.45136` and
`Wdot = 100` and writes nothing to `cout`; `computeProbeInputs` returns the one-element
vector `100.45136 + 89 * pow(0.8, 0.6)` and writes nothing to `cout`; and that value is
within 0.01 of 178.30 when `pow(0.8, 0.6)` is within 0.0001 of 0.8747. This holds for every
probe and muscle name, system mass and basal coefficient and exponent. -/
theorem C7_end_to_end_fixture (pow : ℚ → ℚ → ℚ) (probeName muscleName : String)
    (basal_coefficient basal_exponent sysMass : ℚ)
    (hpow : pow 0.8 2 = 0.64) :
    (∃ st2, loopBody pow (fixtureProbe probeName muscleName basal_coefficient basal_exponent)
        (fixtureModel muscleName sysMass) (fixtureParameter muscleName) (loopEntry []) =
          .ok st2 ∧
      st2.AMdot = 89 * pow 0.8 0.6 ∧ st2.Sdot = 0.64 * 0.70525 ∧ st2.Sdot = 0.45136 ∧
      st2.Wdot = 100 ∧ st2.cout = []) ∧
    (computeProbeInputs pow (fixtureProbe probeName muscleName basal_coefficient basal_exponent)
      (fixtureModel muscleName sysMass)).result = .ok [100.45136 + 89 * pow 0.8 0.6] ∧
    (computeProbeInputs pow (fixtureProbe probeName muscleName basal_coefficient basal_exponent)
      (fixtureModel muscleName sysMass)).cout = [] ∧
    (|pow 0.8 0.6 - 0.8747| ≤ 0.0001 → |100.45136 + 89 * pow 0.8 0.6 - 178.30| ≤ 0.01) := by
  have hc := checkValidMetabolicMuscle_fixture muscleName sysMass
  have hp2 : pow (4 / 5) 2 = 16 / 25 := by
    have h := hpow
    norm_num at h
    exact h
  have hbody : loopBody pow (fixtureProbe probeName muscleName basal_coefficient basal_exponent)
      (fixtureModel muscleName sysMass) (fixtureParameter muscleName) (loopEntry []) =
        .ok { AMdot := 89 * pow 0.8 0.6, Sdot := 0.45136, Wdot := 100,
              Edot := [100.45136 + 89 * pow 0.8 0.6], cout := [] } := by
    simp only [loopBody, hc]
    norm_num [fixtureMuscle, fixtureParameter, fixtureProbe, loopEntry, eqNaN, hp2]
    constructor <;> ring
  refine ⟨⟨_, hbody, rfl, by norm_num, rfl, rfl, rfl⟩, ?_, ?_, ?_⟩
  · simp only [computeProbeInputs]
    have hset : (fixtureProbe probeName muscleName basal_coefficient
        basal_exponent).MetabolicMuscleParameterSet = [fixtureParameter muscleName] := rfl
    have hbas : (fixtureProbe probeName muscleName basal_coefficient
        basal_exponent).basal_rate_on = false := rfl
    simp [hset, hbas, muscleLoop, hbody, eqNaN]
  · simp only [computeProbeInputs]
    have hset : (fixtureProbe probeName muscleName basal_coefficient
        basal_exponent).MetabolicMuscleParameterSet = [fixtureParameter muscleName] := rfl
    have hbas : (fixtureProbe probeName muscleName basal_coefficient
        basal_exponent).basal_rate_on = false := rfl
    simp [hset, hbas, muscleLoop, hbody, eqNaN]
  · intro h
    rw [abs_le] at h ⊢
    constructor <;> norm_num at h ⊢ <;> linarith [h.1, h.2]

/-- C7 with the stand-in for `pow`, whose value at `(0.8, 0.6)` is 0.8747. -/
theorem C7_end_to_end_fixture_witness :
    (computeProbeInputs powStandIn (fixtureProbe "probe" "soleus" 1.51 1)
      (fixtureModel "soleus" 70)).result = .ok [100.45136 + 89 * powStandIn 0.8 0.6] ∧
    |100.45136 + 89 * powStandIn 0.8 0.6 - 178.30| ≤ 0.01 :=
  ⟨(C7_end_to_end_fixture powStandIn "probe" "soleus" 1.51 1 70
      (by norm_num [powStandIn])).2.1,
   (C7_end_to_end_fixture powStandIn "probe" "soleus" 1.51 1 70
      (by norm_num [powStandIn])).2.2.2 (by norm_num [powStandIn, abs_le])⟩

/-- C8: the reporting interface has one dimension. `getNumProbeInputs` is 1,
`getProbeOutputLabels` is the one-element list holding the name of the probe, and every
vector `computeProbeInputs` returns has exactly one element, as many as
`getNumProbeInputs` and as there are labels, for every parameter set. -/
theorem C8_reporting_one_dimensional (pow : ℚ → ℚ → ℚ)
    (probe : MuscleMetabolicPowerProbeUmberger2003) (model : Model) :
    getNumProbeInputs probe = 1 ∧
    getProbeOutputLabels probe = [probe.name] ∧
    (∀ v, (computeProbeInputs pow probe model).result = .ok v →
      v.length = 1 ∧ (v.length : Int) = getNumProbeInputs probe ∧
        v.length = (getProbeOutputLabels probe).length) := by
  refine ⟨rfl, rfl, ?_⟩
  intro v hv
  rw [computeProbeInputs_result] at hv
  cases h : probe.MetabolicMuscleParameterSet.findSome? (firstFailingCheck model) with
  | some e => simp [h] at hv
  | none =>
    simp only [h] at hv
    have hv2 := (Except.ok.inj hv).symm
    subst hv2
    simp [getNumProbeInputs, getProbeOutputLabels]

/-- C8 at a parameter set of size 0 (the default probe) and of size 1 (the fixture): both
calls return, and the vectors have one element. -/
theorem C8_reporting_one_dimensional_witness :
    ([(105.7 : ℚ)].length = 1 ∧ (([(105.7 : ℚ)].length : ℕ) : Int) =
        getNumProbeInputs (constructProperties "probe") ∧
      [(105.7 : ℚ)].length = (getProbeOutputLabels (constructProperties "probe")).length) ∧
    ([(0 : ℚ)].length = 1 ∧ (([(0 : ℚ)].length : ℕ) : Int) =
        getNumProbeInputs
          { allOffProbe with MetabolicMuscleParameterSet := [fixtureParameter "soleus"] } ∧
      [(0 : ℚ)].length = (getProbeOutputLabels
          { allOffProbe with MetabolicMuscleParameterSet := [fixtureParameter "soleus"] }).length) :=
  ⟨(C8_reporting_one_dimensional powStandIn (constructProperties "probe") emptyModel).2.2
      [105.7]
      (by
        rw [computeProbeInputs_result]
        norm_num [constructProperties, specBdot, emptyModel, powStandIn]),
   (C8_reporting_one_dimensional powStandIn
      { allOffProbe with MetabolicMuscleParameterSet := [fixtureParameter "soleus"] }
      (fixtureModel "soleus" 70)).2.2 [0]
      (by
        rw [computeProbeInputs_result]
        simp only [allOffProbe, firstFailingCheck_fixture, List.map_cons, List.map_nil,
          perMuscleEdot, checkValidMetabolicMuscle_fixture]
        norm_num [specEdot, specAMdot, specSdot, specWdot, specBdot])⟩

/-- C9, as stated, fails in `double` arithmetic. With only the work term enabled and three
unit muscles of active fiber force 1, `2 ^ -53` and `2 ^ -53`, the loops over `p` (the
first), `q` (the other two) and `p ++ q` do not throw and store the entries `[1]`,
`[2 ^ -53, 2 ^ -53]` and `[1, 2 ^ -53, 2 ^ -53]`, each computed without rounding. The muscle
sum for `p ++ q` is 1, since adding `2 ^ -53` to 1 rounds back to 1 twice, while the muscle
sum for `p` plus the muscle sum for `q` is `1 + 2 ^ -52`. -/
theorem C9_muscle_sum_counterexample :
    (muscleLoop powStandIn workOnlyProbe sumModel [unitParameter "m1"]
      (loopEntry [])).2 = none ∧
    (muscleLoop powStandIn workOnlyProbe sumModel [unitParameter "m2", unitParameter "m3"]
      (loopEntry [])).2 = none ∧
    (muscleLoop powStandIn workOnlyProbe sumModel [unitParameter "m1"]
      (loopEntry [])).1.Edot = [1] ∧
    (muscleLoop powStandIn workOnlyProbe sumModel [unitParameter "m2", unitParameter "m3"]
      (loopEntry [])).1.Edot = [2 ^ (-53 : ℤ), 2 ^ (-53 : ℤ)] ∧
    (muscleLoop powStandIn workOnlyProbe sumModel
      ([unitParameter "m1"] ++ [unitParameter "m2", unitParameter "m3"])
      (loopEntry [])).1.Edot = [1, 2 ^ (-53 : ℤ), 2 ^ (-53 : ℤ)] ∧
    IEEE.Edot 0 0 1 = 1 ∧
    IEEE.Edot 0 0 (2 ^ (-53 : ℤ)) = 2 ^ (-53 : ℤ) ∧
    IEEE.sum [1, 2 ^ (-53 : ℤ), 2 ^ (-53 : ℤ)] = 1 ∧
    IEEE.fadd (IEEE.sum [1]) (IEEE.sum [2 ^ (-53 : ℤ), 2 ^ (-53 : ℤ)]) = 1 + 2 ^ (-52 : ℤ) ∧
    IEEE.sum [1, 2 ^ (-53 : ℤ), 2 ^ (-53 : ℤ)] ≠
      IEEE.fadd (IEEE.sum [1]) (IEEE.sum [2 ^ (-53 : ℤ), 2 ^ (-53 : ℤ)]) := by
  have hc1 : checkValidMetabolicMuscle sumModel (unitParameter "m1") =
      .ok (unitMuscle "m1" 1) := by
    rw [checkValidMetabolicMuscle_eq]
    simp [sumModel, unitParameter, unitMuscle, List.find?]
    norm_num
  have hc2 : checkValidMetabolicMuscle sumModel (unitParameter "m2") =
      .ok (unitMuscle "m2" (2 ^ (-53 : ℤ))) := by
    rw [checkValidMetabolicMuscle_eq]
    simp [sumModel, unitParameter, unitMuscle, List.find?]
    norm_num
  have hc3 : checkValidMetabolicMuscle sumModel (unitParameter "m3") =
      .ok (unitMuscle "m3" (2 ^ (-53 : ℤ))) := by
    rw [checkValidMetabolicMuscle_eq]
    simp [sumModel, unitParameter, unitMuscle, List.find?]
    norm_num
  have hf1 : firstFailingCheck sumModel (unitParameter "m1") = none := by
    rw [firstFailingCheck_of_ok _ _ _ hc1]
    simp [unitMuscle]
  have hf2 : firstFailingCheck sumModel (unitParameter "m2") = none := by
    rw [firstFailingCheck_of_ok _ _ _ hc2]
    simp [unitMuscle]
  have hf3 : firstFailingCheck sumModel (unitParameter "m3") = none := by
    rw [firstFailingCheck_of_ok _ _ _ hc3]
    simp [unitMuscle]
  have hn1 : [unitParameter "m1"].findSome? (firstFailingCheck sumModel) = none := by
    simp [List.findSome?, hf1]
  have hn2 : [unitParameter "m2", unitParameter "m3"].findSome?
      (firstFailingCheck sumModel) = none := by
    simp [List.findSome?, hf2, hf3]
  have hn3 : ([unitParameter "m1"] ++ [unitParameter "m2", unitParameter "m3"]).findSome?
      (firstFailingCheck sumModel) = none := by
    simp [List.findSome?, hf1, hf2, hf3]
  have e1 : perMuscleEdot powStandIn workOnlyProbe sumModel (unitParameter "m1") = 1 := by
    simp only [perMuscleEdot, hc1]
    norm_num [specEdot, specAMdot, specSdot, specWdot, workOnlyProbe, withFlags,
      constructProperties, unitMuscle, unitParameter]
  have e2 : perMuscleEdot powStandIn workOnlyProbe sumModel (unitParameter "m2") =
      2 ^ (-53 : ℤ) := by
    simp only [perMuscleEdot, hc2]
    norm_num [specEdot, specAMdot, specSdot, specWdot, workOnlyProbe, withFlags,
      constructProperties, unitMuscle, unitParameter]
  have e3 : perMuscleEdot powStandIn workOnlyProbe sumModel (unitParameter "m3") =
      2 ^ (-53 : ℤ) := by
    simp only [perMuscleEdot, hc3]
    norm_num [specEdot, specAMdot, specSdot, specWdot, workOnlyProbe, withFlags,
      constructProperties, unitMuscle, unitParameter]
  have s3 : IEEE.sum [1, 2 ^ (-53 : ℤ), 2 ^ (-53 : ℤ)] = 1 := by
    rw [sum_three, fadd_zero_one, fadd_one_half_ulp, fadd_one_half_ulp]
  have s12 : IEEE.fadd (IEEE.sum [1]) (IEEE.sum [2 ^ (-53 : ℤ), 2 ^ (-53 : ℤ)]) =
      1 + 2 ^ (-52 : ℤ) := by
    rw [sum_one, sum_two, fadd_zero_one, fadd_zero_half_ulp, fadd_half_ulp_twice,
      fadd_one_ulp]
  refine ⟨?_, ?_, ?_, ?_, ?_, ?_, ?_, s3, s12, ?_⟩
  · rw [muscleLoop_thrown, hn1]
  · rw [muscleLoop_thrown, hn2]
  · rw [muscleLoop_Edot _ _ _ _ _ (fun _ => rfl) (fun _ => rfl) (fun _ => rfl) hn1]
    simp [loopEntry, e1]
  · rw [muscleLoop_Edot _ _ _ _ _ (fun _ => rfl) (fun _ => rfl) (fun _ => rfl) hn2]
    simp [loopEntry, e2, e3]
  · rw [muscleLoop_Edot _ _ _ _ _ (fun _ => rfl) (fun _ => rfl) (fun _ => rfl) hn3]
    simp [loopEntry, e1, e2, e3]
  · rw [Edot_eq, fadd_zero_zero, fadd_zero_one]
  · rw [Edot_eq, fadd_zero_zero, fadd_zero_half_ulp]
  · rw [s3, s12]
    norm_num

/-- C9: no cross-muscle data dependency. For a muscle loop entered as `computeProbeInputs`
enters it, whenever the loop over `p` and the loop over `q` do not throw: the entries of
`Edot` stored for `p` are the per-muscle totals of the parameters of `p`, each a function of
the configuration, the parameter and the muscle it resolves to; the loop over `p ++ q` does
not throw; the entries it stores are those stored for `p` followed by those stored for `q`
alone; and its muscle sum in `double` arithmetic is the running sum for `p` continued over
the entries stored for `q`, in their order. -/
theorem C9_no_cross_muscle_dependency (pow : ℚ → ℚ → ℚ)
    (probe : MuscleMetabolicPowerProbeUmberger2003) (model : Model)
    (p q : List MetabolicMuscleParameter) (c : List Warning)
    (hp : (muscleLoop pow probe model p (loopEntry c)).2 = none)
    (hq : (muscleLoop pow probe model q (loopEntry c)).2 = none) :
    (muscleLoop pow probe model p (loopEntry c)).1.Edot =
      p.map (fun mm =>
        match checkValidMetabolicMuscle model mm with
        | .ok m => specEdot pow probe mm m
        | .error _ => 0) ∧
    (muscleLoop pow probe model (p ++ q) (loopEntry c)).2 = none ∧
    (muscleLoop pow probe model (p ++ q) (loopEntry c)).1.Edot =
      (muscleLoop pow probe model p (loopEntry c)).1.Edot ++
        (muscleLoop pow probe model q (loopEntry c)).1.Edot ∧
    IEEE.sum (muscleLoop pow probe model (p ++ q) (loopEntry c)).1.Edot =
      (muscleLoop pow probe model q (loopEntry c)).1.Edot.foldl IEEE.fadd
        (IEEE.sum (muscleLoop pow probe model p (loopEntry c)).1.Edot) := by
  rw [muscleLoop_thrown] at hp hq
  have hpq : (p ++ q).findSome? (firstFailingCheck model) = none := by
    rw [List.findSome?_append, hp, hq]
    rfl
  have hfun : (fun mm =>
      match checkValidMetabolicMuscle model mm with
      | .ok m => specEdot pow probe mm m
      | .error _ => 0) = perMuscleEdot pow probe model := by
    funext mm
    unfold perMuscleEdot
    rfl
  have ep := muscleLoop_Edot pow probe model p (loopEntry c)
    (fun _ => rfl) (fun _ => rfl) (fun _ => rfl) hp
  have eq := muscleLoop_Edot pow probe model q (loopEntry c)
    (fun _ => rfl) (fun _ => rfl) (fun _ => rfl) hq
  have epq := muscleLoop_Edot pow probe model (p ++ q) (loopEntry c)
    (fun _ => rfl) (fun _ => rfl) (fun _ => rfl) hpq
  rw [hfun, muscleLoop_thrown, ep, eq, epq]
  simp [loopEntry, hpq, IEEE.sum, List.foldl_append]

/-- C9 at two copies of the fixture parameter: the loop over the two-element list stores
the entry of the one-element list twice. -/
theorem C9_no_cross_muscle_dependency_witness :
    (muscleLoop powStandIn (fixtureProbe "probe" "soleus" 1.51 1) (fixtureModel "soleus" 70)
      ([fixtureParameter "soleus"] ++ [fixtureParameter "soleus"]) (loopEntry [])).1.Edot =
      (muscleLoop powStandIn (fixtureProbe "probe" "soleus" 1.51 1)
        (fixtureModel "soleus" 70) [fixtureParameter "soleus"] (loopEntry [])).1.Edot ++
      (muscleLoop powStandIn (fixtureProbe "probe" "soleus" 1.51 1)
        (fixtureModel "soleus" 70) [fixtureParameter "soleus"] (loopEntry [])).1.Edot :=
  (C9_no_cross_muscle_dependency powStandIn (fixtureProbe "probe" "soleus" 1.51 1)
    (fixtureModel "soleus" 70) [fixtureParameter "soleus"] [fixtureParameter "soleus"] []
    (by rw [muscleLoop_thrown]; exact firstFailingCheck_fixture "soleus" 70)
    (by rw [muscleLoop_thrown]; exact firstFailingCheck_fixture "soleus" 70)).2.2.1

/-- C10: the exception reported is that of the first failing check, parameters taken in
the order of the set and, for each parameter, the checks in the order name, mass, ratio,
maximum isometric force, force-velocity multiplier. So `computeProbeInputs` throws `e`
exactly when `e` is the first failing check of the first parameter that has one; a
parameter whose name is absent from the model throws the invalid-muscle exception whatever
its mass and ratio; a parameter with a present name and a mass that is not positive throws
the mass exception whatever its ratio; and when the parameters before some parameter pass
all five checks and that parameter fails `checkValidMetabolicMuscle`, `computeProbeInputs`
throws that exception, whatever the muscles of this and later parameters are. -/
theorem C10_first_failing_check_reported (pow : ℚ → ℚ → ℚ)
    (probe : MuscleMetabolicPowerProbeUmberger2003) (model : Model) :
    (∀ e, (computeProbeInputs pow probe model).result = .error e ↔
      probe.MetabolicMuscleParameterSet.findSome? (firstFailingCheck model) = some e) ∧
    (∀ mm : MetabolicMuscleParameter, (∀ m ∈ model.muscles, m.name ≠ mm.name) →
      checkValidMetabolicMuscle model mm = .error (.invalidMuscle mm.name)) ∧
    (∀ mm : MetabolicMuscleParameter, (∃ m ∈ model.muscles, m.name = mm.name) →
      mm.muscleMass ≤ 0 →
      checkValidMetabolicMuscle model mm = .error (.invalidMuscleMass mm.name)) ∧
    (∀ mm : MetabolicMuscleParameter, (∃ m ∈ model.muscles, m.name = mm.name) →
      0 < mm.muscleMass → (mm.ratioSlowTwitchFibers < 0 ∨ 1 < mm.ratioSlowTwitchFibers) →
      checkValidMetabolicMuscle model mm = .error (.invalidRatioSlowTwitchFibers mm.name)) ∧
    (∀ pre mm post e, probe.MetabolicMuscleParameterSet = pre ++ mm :: post →
      (∀ x ∈ pre, ∃ m, checkValidMetabolicMuscle model x = .ok m ∧
        m.maxIsometricForce ≠ 0 ∧ m.forceVelocityMultiplier ≠ 0) →
      checkValidMetabolicMuscle model mm = .error e →
      (computeProbeInputs pow probe model).result = .error e) ∧
    (∀ pre mm post m, probe.MetabolicMuscleParameterSet = pre ++ mm :: post →
      (∀ x ∈ pre, ∃ m, checkValidMetabolicMuscle model x = .ok m ∧
        m.maxIsometricForce ≠ 0 ∧ m.forceVelocityMultiplier ≠ 0) →
      checkValidMetabolicMuscle model mm = .ok m →
      (m.maxIsometricForce = 0 →
        (computeProbeInputs pow probe model).result =
          .error (.zeroMaxIsometricForce m.name)) ∧
      (m.maxIsometricForce ≠ 0 → m.forceVelocityMultiplier = 0 →
        (computeProbeInputs pow probe model).result =
          .error (.zeroForceVelocityMultiplier m.name))) := by
  have hpre : ∀ pre : List MetabolicMuscleParameter,
      (∀ x ∈ pre, ∃ m, checkValidMetabolicMuscle model x = .ok m ∧
        m.maxIsometricForce ≠ 0 ∧ m.forceVelocityMultiplier ≠ 0) →
      pre.findSome? (firstFailingCheck model) = none := by
    intro pre h
    rw [List.findSome?_eq_none_iff]
    intro x hx
    obtain ⟨m, hc, h1, h2⟩ := h x hx
    rw [firstFailingCheck_of_ok model x m hc]
    simp [h1, h2]
  have hfind : ∀ mm : MetabolicMuscleParameter, (∃ m ∈ model.muscles, m.name = mm.name) →
      ∃ x, model.muscles.find? (fun x => decide (x.name = mm.name)) = some x := by
    intro mm hex
    cases hf : model.muscles.find? (fun x => decide (x.name = mm.name)) with
    | some x => exact ⟨x, rfl⟩
    | none =>
      exfalso
      obtain ⟨m, hm, hname⟩ := hex
      have := (List.find?_eq_none.1 hf) m hm
      simp [hname] at this
  refine ⟨?_, ?_, ?_, ?_, ?_, ?_⟩
  · intro e
    rw [computeProbeInputs_result]
    cases h : probe.MetabolicMuscleParameterSet.findSome? (firstFailingCheck model) with
    | none => simp
    | some e2 =>
      simp only [Option.some.injEq]
      constructor
      · intro h2; exact Except.error.inj h2
      · intro h2; rw [h2]
  · intro mm hno
    rw [checkValidMetabolicMuscle_eq]
    have hf : model.muscles.find? (fun x => decide (x.name = mm.name)) = none := by
      rw [List.find?_eq_none]
      intro x hx
      simpa using hno x hx
    simp [hf]
  · intro mm hex hmass
    rw [checkValidMetabolicMuscle_eq]
    obtain ⟨x, hx⟩ := hfind mm hex
    simp [hx, hmass]
  · intro mm hex hmass hr
    rw [checkValidMetabolicMuscle_eq]
    obtain ⟨x, hx⟩ := hfind mm hex
    have hr2 : mm.ratioSlowTwitchFibers < 0 ∨ mm.ratioSlowTwitchFibers > 1 := hr
    simp only [hx, not_le.2 hmass, if_false, hr2, if_true]
  · intro pre mm post e hset hok hc
    rw [computeProbeInputs_result, hset, List.findSome?_append, hpre pre hok]
    have hb := (loopBody_error_iff pow probe model mm (loopEntry []) e).1 (by
      simp only [loopBody, hc])
    simp [List.findSome?, hb]
  · intro pre mm post m hset hok hc
    have hff := firstFailingCheck_of_ok model mm m hc
    constructor
    · intro h0
      rw [computeProbeInputs_result, hset, List.findSome?_append, hpre pre hok]
      simp [List.findSome?, hff, h0]
    · intro h0 h1
      rw [computeProbeInputs_result, hset, List.findSome?_append, hpre pre hok]
      simp [List.findSome?, hff, h0, h1]

/-- C10 at concrete inputs. A parameter with an absent name, mass -1 and ratio 2 throws the
invalid-muscle exception; a parameter with the name of a muscle whose maximum isometric
force is zero, mass 0 and ratio 2 makes `computeProbeInputs` throw the mass exception. -/
theorem C10_first_failing_check_reported_witness :
    checkValidMetabolicMuscle (fixtureModel "soleus" 70)
      { name := "tibialis", muscleMass := -1, ratioSlowTwitchFibers := 2 } =
        .error (.invalidMuscle "tibialis") ∧
    (computeProbeInputs powStandIn
      { allOffProbe with MetabolicMuscleParameterSet :=
          [{ name := "soleus", muscleMass := 0, ratioSlowTwitchFibers := 2 },
           fixtureParameter "soleus"] }
      { muscles := [{ fixtureMuscle "soleus" with maxIsometricForce := 0 }],
        systemMass := 70 }).result = .error (.invalidMuscleMass "soleus") :=
  ⟨(C10_first_failing_check_reported powStandIn allOffProbe (fixtureModel "soleus" 70)).2.1
      { name := "tibialis", muscleMass := -1, ratioSlowTwitchFibers := 2 }
      (by
        intro m hm
        have hm2 : m = fixtureMuscle "soleus" := by simpa [fixtureModel] using hm
        subst hm2
        decide),
   (C10_first_failing_check_reported powStandIn
      { allOffProbe with MetabolicMuscleParameterSet :=
          [{ name := "soleus", muscleMass := 0, ratioSlowTwitchFibers := 2 },
           fixtureParameter "soleus"] }
      { muscles := [{ fixtureMuscle "soleus" with maxIsometricForce := 0 }],
        systemMass := 70 }).2.2.2.2.1
      [] { name := "soleus", muscleMass := 0, ratioSlowTwitchFibers := 2 }
      [fixtureParameter "soleus"] (.invalidMuscleMass "soleus") rfl
      (by intro x hx; cases hx)
      ((C10_first_failing_check_reported powStandIn allOffProbe
        { muscles := [{ fixtureMuscle "soleus" with maxIsometricForce := 0 }],
          systemMass := 70 }).2.2.1
        { name := "soleus", muscleMass := 0, ratioSlowTwitchFibers := 2 }
        ⟨_, List.mem_singleton.2 rfl, rfl⟩ (le_refl 0))⟩

/-- C11, at a failing input: the fixture muscle with a normalized fiber velocity of -20.
The slow-twitch term is -175 and the fast-twitch term is -107.1, both beyond 100 in
magnitude; the iteration writes no clamp warning and stores `Sdot = 0.64 * 282.1`, the
scaled sum of the unclamped terms, where a limit of 100 on each term would allow at most
`0.64 * 200`. -/
theorem C11_concentric_terms_not_limited :
    tmp_slowTwitch 10 (-20) 0.5 = -175 ∧
    tmp_fastTwitch 10 (-20) 0.5 = -107.1 ∧
    (∃ st2, loopBody powStandIn (fixtureProbe "probe" "soleus" 1.51 1)
        { muscles := [{ fixtureMuscle "soleus" with normalizedFiberVelocity := -20 }],
          systemMass := 70 }
        (fixtureParameter "soleus") (loopEntry []) = .ok st2 ∧
      st2.Sdot = 0.64 * 282.1 ∧ st2.cout = [] ∧ 0.64 * 200 < |st2.Sdot|) := by
  have hc := checkValidMetabolicMuscle_single
    { fixtureMuscle "soleus" with normalizedFiberVelocity := -20 } 0.5 0.5 70
    (by norm_num) (by norm_num) (by norm_num)
  refine ⟨by norm_num [tmp_slowTwitch, Vmax_slowtwitch],
    by norm_num [tmp_fastTwitch, Vmax_fasttwitch, Vmax_slowtwitch], ?_⟩
  have hbody : loopBody powStandIn (fixtureProbe "probe" "soleus" 1.51 1)
      { muscles := [{ fixtureMuscle "soleus" with normalizedFiberVelocity := -20 }],
        systemMass := 70 }
      (fixtureParameter "soleus") (loopEntry []) =
        .ok { AMdot := 89 * (8747 / 10000), Sdot := 0.64 * 282.1, Wdot := 100,
              Edot := [89 * (8747 / 10000) + 0.64 * 282.1 + 100], cout := [] } := by
    have hc2 : checkValidMetabolicMuscle
        { muscles := [{ fixtureMuscle "soleus" with normalizedFiberVelocity := -20 }],
          systemMass := 70 }
        (fixtureParameter "soleus") =
          .ok { fixtureMuscle "soleus" with normalizedFiberVelocity := -20 } := hc
    simp only [loopBody, hc2]
    norm_num [fixtureMuscle, fixtureParameter, fixtureProbe, loopEntry, eqNaN, powStandIn]
  refine ⟨_, hbody, rfl, rfl, ?_⟩
  norm_num [abs_of_pos]

/-- C12: the clamp is unreachable for a concentric contraction. For a parameter that
passes validation (so its ratio lies in the unit interval) and a muscle with positive
maximum contraction velocity and normalized fiber velocity at most 0, both terms are at
most 0; the iteration adds no clamp warning to `cout`; and with the shortening term
enabled the stored `Sdot` is the scaled value of `-(slowTerm + fastTerm)` with the terms
unclamped (times `F_iso` above length 1). -/
theorem C12_clamp_unreachable_concentric (pow : ℚ → ℚ → ℚ)
    (probe : MuscleMetabolicPowerProbeUmberger2003) (model : Model)
    (mm : MetabolicMuscleParameter) (m : Muscle) (st : LoopState)
    (hc : checkValidMetabolicMuscle model mm = .ok m)
    (h1 : m.maxIsometricForce ≠ 0) (h2 : m.forceVelocityMultiplier ≠ 0)
    (hvmax : 0 < m.maxContractionVelocity) (hv : m.normalizedFiberVelocity ≤ 0) :
    tmp_slowTwitch m.maxContractionVelocity m.normalizedFiberVelocity
      mm.ratioSlowTwitchFibers ≤ 0 ∧
    tmp_fastTwitch m.maxContractionVelocity m.normalizedFiberVelocity
      mm.ratioSlowTwitchFibers ≤ 0 ∧
    ∃ st2, loopBody pow probe model mm st = .ok st2 ∧
      st2.cout = st.cout ++
        (if m.normalizedFiberLength < 0 then [Warning.negativeFiberLength m.name] else []) ∧
      (probe.shortening_rate_on = true →
        st2.Sdot =
          if m.normalizedFiberLength > 1 then
            probe.scaling_factor * pow (A m.control m.activation) 2 *
              (-(100 / Vmax_slowtwitch m.maxContractionVelocity mm.ratioSlowTwitchFibers *
                  m.normalizedFiberVelocity * mm.ratioSlowTwitchFibers +
                153 / Vmax_fasttwitch m.maxContractionVelocity mm.ratioSlowTwitchFibers *
                  m.normalizedFiberVelocity * (1 - mm.ratioSlowTwitchFibers))) *
              ((m.activeFiberForce / m.forceVelocityMultiplier) / m.maxIsometricForce)
          else
            probe.scaling_factor * pow (A m.control m.activation) 2 *
              (-(100 / Vmax_slowtwitch m.maxContractionVelocity mm.ratioSlowTwitchFibers *
                  m.normalizedFiberVelocity * mm.ratioSlowTwitchFibers +
                153 / Vmax_fasttwitch m.maxContractionVelocity mm.ratioSlowTwitchFibers *
                  m.normalizedFiberVelocity * (1 - mm.ratioSlowTwitchFibers)))) := by
  obtain ⟨-, hr0, hr1⟩ := checkValidMetabolicMuscle_bounds model mm m hc
  obtain ⟨hslow, hfast⟩ := concentric_terms_nonpos m.maxContractionVelocity
    m.normalizedFiberVelocity mm.ratioSlowTwitchFibers hr0 hr1 hvmax hv
  refine ⟨hslow, hfast, ?_⟩
  obtain ⟨st2, hb, -, hS, -⟩ := loopBody_ok pow probe model mm st m hc h1 h2
  obtain ⟨st3, hb3, hcout⟩ := loopBody_cout pow probe model mm st m hc h1 h2
  have h23 : st3 = st2 := Except.ok.inj (hb3.symm.trans hb)
  subst h23
  refine ⟨st3, hb, ?_, ?_⟩
  · rw [hcout]
    have c1 : ¬ tmp_slowTwitch m.maxContractionVelocity m.normalizedFiberVelocity
        mm.ratioSlowTwitchFibers > 100 := by
      intro h; linarith
    have c2 : ¬ tmp_fastTwitch m.maxContractionVelocity m.normalizedFiberVelocity
        mm.ratioSlowTwitchFibers > 100 := by
      intro h; linarith
    simp [c1, c2]
  · intro hs
    rw [hS, if_pos hs, specSdot_concentric pow probe mm m hs hv hslow hfast]
    simp only [tmp_slowTwitch, tmp_fastTwitch]

/-- C12 at the fixture: the iteration leaves `cout` empty. -/
theorem C12_clamp_unreachable_concentric_witness :
    ∃ st2, loopBody powStandIn (fixtureProbe "probe" "soleus" 1.51 1)
        (fixtureModel "soleus" 70) (fixtureParameter "soleus") (loopEntry []) = .ok st2 ∧
      st2.cout = [] := by
  obtain ⟨-, -, st2, hb, hcout, -⟩ := C12_clamp_unreachable_concentric powStandIn
    (fixtureProbe "probe" "soleus" 1.51 1) (fixtureModel "soleus" 70)
    (fixtureParameter "soleus") (fixtureMuscle "soleus") (loopEntry [])
    (checkValidMetabolicMuscle_fixture "soleus" 70)
    (by norm_num [fixtureMuscle]) (by norm_num [fixtureMuscle])
    (by norm_num [fixtureMuscle]) (by norm_num [fixtureMuscle])
  refine ⟨st2, hb, ?_⟩
  rw [hcout]
  norm_num [loopEntry, fixtureMuscle]

/-- C13: closed form of the concentric shortening heat rate. For a parameter that passes
validation, a muscle with positive maximum contraction velocity `Vmax` and normalized fiber
velocity `v` at most 0, and the shortening term enabled, given that `pow(A, 2)` is `A^2`,
the stored `Sdot` is `-scaling_factor * A^2 * v * (1 + 1.5*(1 - r)) * (100*r + 61.2*(1 - r))
/ Vmax` at normalized fiber length at most 1, and that value times `F_iso` above 1. -/
theorem C13_concentric_Sdot_closed_form (pow : ℚ → ℚ → ℚ)
    (probe : MuscleMetabolicPowerProbeUmberger2003) (model : Model)
    (mm : MetabolicMuscleParameter) (m : Muscle) (st : LoopState)
    (hc : checkValidMetabolicMuscle model mm = .ok m)
    (h1 : m.maxIsometricForce ≠ 0) (h2 : m.forceVelocityMultiplier ≠ 0)
    (hs : probe.shortening_rate_on = true)
    (hvmax : 0 < m.maxContractionVelocity) (hv : m.normalizedFiberVelocity ≤ 0)
    (hpow : pow (A m.control m.activation) 2 = (A m.control m.activation) ^ 2) :
    ∃ st2, loopBody pow probe model mm st = .ok st2 ∧
      st2.Sdot =
        if m.normalizedFiberLength ≤ 1 then
          -probe.scaling_factor * (A m.control m.activation) ^ 2 * m.normalizedFiberVelocity *
            (1 + 1.5 * (1 - mm.ratioSlowTwitchFibers)) *
            (100 * mm.ratioSlowTwitchFibers + 61.2 * (1 - mm.ratioSlowTwitchFibers)) /
            m.maxContractionVelocity
        else
          -probe.scaling_factor * (A m.control m.activation) ^ 2 * m.normalizedFiberVelocity *
            (1 + 1.5 * (1 - mm.ratioSlowTwitchFibers)) *
            (100 * mm.ratioSlowTwitchFibers + 61.2 * (1 - mm.ratioSlowTwitchFibers)) /
            m.maxContractionVelocity *
            (m.activeFiberForce / (m.forceVelocityMultiplier * m.maxIsometricForce)) := by
  obtain ⟨-, hr0, hr1⟩ := checkValidMetabolicMuscle_bounds model mm m hc
  obtain ⟨hslow, hfast⟩ := concentric_terms_nonpos m.maxContractionVelocity
    m.normalizedFiberVelocity mm.ratioSlowTwitchFibers hr0 hr1 hvmax hv
  obtain ⟨st2, hb, -, hS, -⟩ := loopBody_ok pow probe model mm st m hc h1 h2
  refine ⟨st2, hb, ?_⟩
  rw [hS, if_pos hs, specSdot_concentric pow probe mm m hs hv hslow hfast, hpow]
  have hk : (1 + 1.5 * (1 - mm.ratioSlowTwitchFibers) : ℚ) ≠ 0 :=
    (fiber_factor_pos _ hr1).ne'
  have hV : m.maxContractionVelocity ≠ 0 := hvmax.ne'
  have hsum : -(tmp_slowTwitch m.maxContractionVelocity m.normalizedFiberVelocity
        mm.ratioSlowTwitchFibers +
      tmp_fastTwitch m.maxContractionVelocity m.normalizedFiberVelocity
        mm.ratioSlowTwitchFibers) =
      -(m.normalizedFiberVelocity * (1 + 1.5 * (1 - mm.ratioSlowTwitchFibers)) *
        (100 * mm.ratioSlowTwitchFibers + 61.2 * (1 - mm.ratioSlowTwitchFibers)) /
        m.maxContractionVelocity) := by
    simp only [tmp_slowTwitch, tmp_fastTwitch, Vmax_fasttwitch, Vmax_slowtwitch]
    field_simp
    ring
  rw [hsum]
  by_cases hl : m.normalizedFiberLength ≤ 1
  · have hl2 : ¬ m.normalizedFiberLength > 1 := not_lt.2 hl
    simp only [hl, hl2, if_true, if_false]
    ring
  · have hl2 : m.normalizedFiberLength > 1 := lt_of_not_ge hl
    simp only [hl, hl2, if_true, if_false]
    rw [div_div]
    ring

/-- C13 at the fixture with the stand-in for `pow`: `Sdot = 0.45136`. -/
theorem C13_concentric_Sdot_closed_form_witness :
    ∃ st2, loopBody powStandIn (fixtureProbe "probe" "soleus" 1.51 1)
        (fixtureModel "soleus" 70) (fixtureParameter "soleus") (loopEntry []) = .ok st2 ∧
      st2.Sdot = 0.45136 := by
  obtain ⟨st2, hb, hS⟩ := C13_concentric_Sdot_closed_form powStandIn
    (fixtureProbe "probe" "soleus" 1.51 1) (fixtureModel "soleus" 70)
    (fixtureParameter "soleus") (fixtureMuscle "soleus") (loopEntry [])
    (checkValidMetabolicMuscle_fixture "soleus" 70)
    (by norm_num [fixtureMuscle]) (by norm_num [fixtureMuscle]) rfl
    (by norm_num [fixtureMuscle]) (by norm_num [fixtureMuscle])
    (by norm_num [fixtureMuscle, A, powStandIn])
  refine ⟨st2, hb, ?_⟩
  rw [hS]
  norm_num [fixtureMuscle, fixtureParameter, fixtureProbe, A]

/-- C14: length dependence of the activation-maintenance heat rate. For two muscles that
differ in the normalized fiber length only, one at length at most 1 (the boundary 1
included) and one above 1, with the term enabled: the first stores
`scaling_factor * pow(A, 0.6) * (128*(1 - r) + 25)`, and the second stores
`(0.4 + 0.6 * F_iso)` times that value, with
`F_iso = (activeFiberForce / forceVelocityMultiplier) / maxIsometricForce`. -/
theorem C14_AMdot_length_dependence (pow : ℚ → ℚ → ℚ)
    (probe : MuscleMetabolicPowerProbeUmberger2003) (model1 model2 : Model)
    (mm : MetabolicMuscleParameter) (m1 : Muscle) (l2 : ℚ) (st1 st2 : LoopState)
    (hon : probe.activation_maintenance_rate_on = true)
    (hc1 : checkValidMetabolicMuscle model1 mm = .ok m1)
    (hc2 : checkValidMetabolicMuscle model2 mm =
      .ok { m1 with normalizedFiberLength := l2 })
    (h1 : m1.maxIsometricForce ≠ 0) (h2 : m1.forceVelocityMultiplier ≠ 0)
    (hl1 : m1.normalizedFiberLength ≤ 1) (hl2 : 1 < l2) :
    ∃ s1 s2, loopBody pow probe model1 mm st1 = .ok s1 ∧
      loopBody pow probe model2 mm st2 = .ok s2 ∧
      s1.AMdot = probe.scaling_factor * pow (A m1.control m1.activation) 0.6 *
        (128 * (1 - mm.ratioSlowTwitchFibers) + 25) ∧
      s2.AMdot = (0.4 + 0.6 *
        ((m1.activeFiberForce / m1.forceVelocityMultiplier) / m1.maxIsometricForce)) *
        s1.AMdot := by
  obtain ⟨s1, hb1, hA1, -⟩ := loopBody_ok pow probe model1 mm st1 m1 hc1 h1 h2
  obtain ⟨s2, hb2, hA2, -⟩ := loopBody_ok pow probe model2 mm st2
    { m1 with normalizedFiberLength := l2 } hc2 h1 h2
  have hl3 : ¬ l2 ≤ 1 := not_le.2 hl2
  have e1 : s1.AMdot = probe.scaling_factor * pow (A m1.control m1.activation) 0.6 *
      (128 * (1 - mm.ratioSlowTwitchFibers) + 25) := by
    rw [hA1]
    simp only [hon, if_true, specAMdot, hl1, specA, A]
  refine ⟨s1, s2, hb1, hb2, e1, ?_⟩
  rw [hA2, e1]
  simp only [hon, if_true, specAMdot, hl3, if_false, specA, specFiso, A]
  ring

/-- C14 at the fixture muscle (length exactly 1) and the same muscle at length 1.2, for
which `F_iso` is 0.5 and the factor is 0.7. -/
theorem C14_AMdot_length_dependence_witness :
    ∃ s1 s2, loopBody powStandIn (fixtureProbe "probe" "soleus" 1.51 1)
        (fixtureModel "soleus" 70) (fixtureParameter "soleus") (loopEntry []) = .ok s1 ∧
      loopBody powStandIn (fixtureProbe "probe" "soleus" 1.51 1)
        { muscles := [{ fixtureMuscle "soleus" with normalizedFiberLength := 1.2 }],
          systemMass := 70 }
        (fixtureParameter "soleus") (loopEntry []) = .ok s2 ∧
      s2.AMdot = 0.7 * s1.AMdot := by
  obtain ⟨s1, s2, hb1, hb2, -, hA⟩ := C14_AMdot_length_dependence powStandIn
    (fixtureProbe "probe" "soleus" 1.51 1) (fixtureModel "soleus" 70)
    { muscles := [{ fixtureMuscle "soleus" with normalizedFiberLength := 1.2 }],
      systemMass := 70 }
    (fixtureParameter "soleus") (fixtureMuscle "soleus") 1.2 (loopEntry []) (loopEntry [])
    rfl (checkValidMetabolicMuscle_fixture "soleus" 70)
    (checkValidMetabolicMuscle_single
      { fixtureMuscle "soleus" with normalizedFiberLength := 1.2 } 0.5 0.5 70
      (by norm_num) (by norm_num) (by norm_num))
    (by norm_num [fixtureMuscle]) (by norm_num [fixtureMuscle])
    (by norm_num [fixtureMuscle]) (by norm_num)
  refine ⟨s1, s2, hb1, hb2, ?_⟩
  rw [hA]
  norm_num [fixtureMuscle]

/-- C15: the activation scaling parameter `A` is the larger of the excitation and the mean
of excitation and activation; it lies between the smaller and the larger of the two; it
lies in the unit interval when both do; it equals both when they are equal; and it is the
value whose power 0.6 scales the stored `AMdot`. -/
theorem C15_activation_scaling_A (e a : ℚ) :
    A e a = max e ((e + a) / 2) ∧
    min e a ≤ A e a ∧ A e a ≤ max e a ∧
    (0 ≤ e → e ≤ 1 → 0 ≤ a → a ≤ 1 → 0 ≤ A e a ∧ A e a ≤ 1) ∧
    (e = a → A e a = e ∧ A e a = a) ∧
    (∀ (pow : ℚ → ℚ → ℚ) (probe : MuscleMetabolicPowerProbeUmberger2003) (model : Model)
      (mm : MetabolicMuscleParameter) (m : Muscle) (st : LoopState),
      checkValidMetabolicMuscle model mm = .ok m → m.maxIsometricForce ≠ 0 →
      m.forceVelocityMultiplier ≠ 0 → probe.activation_maintenance_rate_on = true →
      m.normalizedFiberLength ≤ 1 → m.control = e → m.activation = a →
      ∃ st2, loopBody pow probe model mm st = .ok st2 ∧
        st2.AMdot = probe.scaling_factor * pow (A e a) 0.6 *
          (128 * (1 - mm.ratioSlowTwitchFibers) + 25)) := by
  have hmin : min e a ≤ A e a ∧ A e a ≤ max e a := by
    unfold A
    by_cases h : e > a
    · simp only [h, if_true]
      exact ⟨min_le_left _ _, le_max_left _ _⟩
    · simp only [h, if_false]
      have hle : e ≤ a := not_lt.1 h
      rw [min_eq_left hle, max_eq_right hle]
      constructor <;> linarith
  refine ⟨?_, hmin.1, hmin.2, ?_, ?_, ?_⟩
  · unfold A
    by_cases h : e > a
    · simp only [h, if_true]
      rw [max_eq_left]
      linarith
    · simp only [h, if_false]
      have hle : e ≤ a := not_lt.1 h
      rw [max_eq_right]
      linarith
  · intro he0 he1 ha0 ha1
    exact ⟨le_trans (le_min he0 ha0) hmin.1, le_trans hmin.2 (max_le he1 ha1)⟩
  · intro hea
    subst hea
    unfold A
    simp
  · intro pow probe model mm m st hc h1 h2 hon hl he ha
    obtain ⟨st2, hb, hA, -⟩ := loopBody_ok pow probe model mm st m hc h1 h2
    refine ⟨st2, hb, ?_⟩
    rw [hA]
    simp only [hon, if_true, specAMdot, hl, specA, A, he, ha]

/-- C15 at excitation 1 and activation 0.5 (`A = 1`), and at the fixture, where both are
0.8 and the stored `AMdot` is `89 * pow(0.8, 0.6)`. -/
theorem C15_activation_scaling_A_witness :
    A 1 0.5 = max 1 ((1 + 0.5) / 2) ∧ (0 ≤ A 1 0.5 ∧ A 1 0.5 ≤ 1) ∧
    (A 0.8 0.8 = 0.8 ∧ A 0.8 0.8 = 0.8) ∧
    (∃ st2, loopBody powStandIn (fixtureProbe "probe" "soleus" 1.51 1)
        (fixtureModel "soleus" 70) (fixtureParameter "soleus") (loopEntry []) = .ok st2 ∧
      st2.AMdot = (fixtureProbe "probe" "soleus" 1.51 1).scaling_factor *
        powStandIn (A 0.8 0.8) 0.6 *
          (128 * (1 - (fixtureParameter "soleus").ratioSlowTwitchFibers) + 25)) :=
  ⟨(C15_activation_scaling_A 1 0.5).1,
   (C15_activation_scaling_A 1 0.5).2.2.2.1 (by norm_num) (by norm_num) (by norm_num)
     (by norm_num),
   (C15_activation_scaling_A 0.8 0.8).2.2.2.2.1 rfl,
   (C15_activation_scaling_A 0.8 0.8).2.2.2.2.2 powStandIn
     (fixtureProbe "probe" "soleus" 1.51 1) (fixtureModel "soleus" 70)
     (fixtureParameter "soleus") (fixtureMuscle "soleus") (loopEntry [])
     (checkValidMetabolicMuscle_fixture "soleus" 70)
     (by norm_num [fixtureMuscle]) (by norm_num [fixtureMuscle]) rfl
     (by norm_num [fixtureMuscle]) rfl rfl⟩

/-- C16: no floor is applied. Every vector `computeProbeInputs` returns holds the sum of
the per-muscle totals plus the basal term, unchanged; and for the default properties (all
four terms enabled), the fixture parameter, a muscle at rest and a system mass of 0.5, a
valid input, it returns 0.755, which is below 1.0, given that `pow(0, 0.6)` is 0 and
`pow(0.5, 1)` is 0.5. -/
theorem C16_no_floor_on_output (pow : ℚ → ℚ → ℚ)
    (hp06 : pow 0 0.6 = 0) (hp1 : pow 0.5 1 = 0.5) :
    (∀ (probe : MuscleMetabolicPowerProbeUmberger2003) (model : Model) (v : List ℚ),
      (computeProbeInputs pow probe model).result = .ok v →
      v = [(probe.MetabolicMuscleParameterSet.map (perMuscleEdot pow probe model)).sum +
        specBdot pow probe model]) ∧
    ((defaultProbeOneMuscle "probe" "soleus").activation_maintenance_rate_on = true ∧
      (defaultProbeOneMuscle "probe" "soleus").shortening_rate_on = true ∧
      (defaultProbeOneMuscle "probe" "soleus").basal_rate_on = true ∧
      (defaultProbeOneMuscle "probe" "soleus").mechanical_work_rate_on = true) ∧
    (checkValidMetabolicMuscle { muscles := [restingMuscle "soleus"], systemMass := 0.5 }
        (fixtureParameter "soleus") = .ok (restingMuscle "soleus") ∧
      (restingMuscle "soleus").maxIsometricForce ≠ 0 ∧
      (restingMuscle "soleus").forceVelocityMultiplier ≠ 0) ∧
    (computeProbeInputs pow (defaultProbeOneMuscle "probe" "soleus")
      { muscles := [restingMuscle "soleus"], systemMass := 0.5 }).result = .ok [0.755] ∧
    (0.755 : ℚ) < 1.0 := by
  have hc : checkValidMetabolicMuscle
      { muscles := [restingMuscle "soleus"], systemMass := 0.5 }
      (fixtureParameter "soleus") = .ok (restingMuscle "soleus") :=
    checkValidMetabolicMuscle_single (restingMuscle "soleus") 0.5 0.5 0.5
      (by norm_num) (by norm_num) (by norm_num)
  have hm1 : (restingMuscle "soleus").maxIsometricForce ≠ 0 := by
    norm_num [restingMuscle, fixtureMuscle]
  have hm2 : (restingMuscle "soleus").forceVelocityMultiplier ≠ 0 := by
    norm_num [restingMuscle, fixtureMuscle]
  refine ⟨?_, ⟨rfl, rfl, rfl, rfl⟩, ⟨hc, hm1, hm2⟩, ?_, by norm_num⟩
  · intro probe model v hv
    rw [computeProbeInputs_result] at hv
    cases h : probe.MetabolicMuscleParameterSet.findSome? (firstFailingCheck model) with
    | some e => simp [h] at hv
    | none =>
      simp only [h] at hv
      exact (Except.ok.inj hv).symm
  · have hnone : (defaultProbeOneMuscle "probe" "soleus").MetabolicMuscleParameterSet.findSome?
        (firstFailingCheck { muscles := [restingMuscle "soleus"], systemMass := 0.5 }) =
          none := by
      rw [List.findSome?_eq_none_iff]
      intro mm hmm
      have hmm2 : mm = fixtureParameter "soleus" := by
        simpa [defaultProbeOneMuscle] using hmm
      subst hmm2
      rw [firstFailingCheck_of_ok _ _ _ hc]
      simp [hm1, hm2]
    have h06 : pow 0 (3 / 5) = 0 := by
      have h := hp06
      norm_num at h
      exact h
    have h1 : pow (1 / 2) 1 = 1 / 2 := by
      have h := hp1
      norm_num at h
      exact h
    rw [computeProbeInputs_result, hnone]
    simp only [defaultProbeOneMuscle, List.map_cons, List.map_nil, perMuscleEdot, hc]
    norm_num [specEdot, specAMdot, specSdot, specWdot, specBdot, specA, specFiso, specClamp,
      restingMuscle, fixtureMuscle, fixtureParameter, constructProperties, h06, h1]

/-- C16 with a stand-in for `pow` that is exact at exponent 1 and 0 elsewhere. -/
theorem C16_no_floor_on_output_witness :
    (computeProbeInputs (fun x y => if y = 1 then x else 0)
      (defaultProbeOneMuscle "probe" "soleus")
      { muscles := [restingMuscle "soleus"], systemMass := 0.5 }).result = .ok [0.755] :=
  (C16_no_floor_on_output (fun x y => if y = 1 then x else 0)
    (by norm_num) (by norm_num)).2.2.2.1

/-- C17, what the code does: no call of `computeProbeInputs` writes one of the four
not-a-number warnings to `cout`, whatever the inputs, because every check is a comparison
`x == NaN`, which is false for every operand. -/
theorem C17_no_NaN_warning_is_written (pow : ℚ → ℚ → ℚ)
    (probe : MuscleMetabolicPowerProbeUmberger2003) (model : Model) :
    (∀ x : ℚ, eqNaN x = false) ∧
    ∀ w ∈ (computeProbeInputs pow probe model).cout, reportsNaN w = false := by
  refine ⟨fun _ => rfl, ?_⟩
  have hloop := muscleLoop_cout_reportsNaN pow probe model probe.MetabolicMuscleParameterSet
    (loopEntry []) (by intro w hw; simp [loopEntry] at hw)
  intro w hw
  apply hloop w
  simp only [computeProbeInputs, eqNaN, Bool.false_eq_true, and_false, if_false] at hw
  split at hw <;> exact hw

/-- C18: sign of the shortening and lengthening heat rate. For a parameter that passes
validation, a muscle with positive maximum contraction velocity, excitation and activation
at least 0, and `F_iso` at least 0 unless the normalized fiber length is at most 1, with
the term enabled and a scaling factor at least 0, given that `pow(A, 2)` is not negative:
the stored `Sdot` is at least 0 for normalized fiber velocity at most 0, at most 0 for
positive velocity, negative for positive velocity when the scaling factor and `A` are
positive and (above length 1) `F_iso` is positive, and exactly 0 at velocity 0. -/
theorem C18_Sdot_sign (pow : ℚ → ℚ → ℚ)
    (probe : MuscleMetabolicPowerProbeUmberger2003) (model : Model)
    (mm : MetabolicMuscleParameter) (m : Muscle) (st : LoopState)
    (hc : checkValidMetabolicMuscle model mm = .ok m)
    (h1 : m.maxIsometricForce ≠ 0) (h2 : m.forceVelocityMultiplier ≠ 0)
    (hs : probe.shortening_rate_on = true)
    (hvmax : 0 < m.maxContractionVelocity)
    (hsf : 0 ≤ probe.scaling_factor)
    (he : 0 ≤ m.control) (ha : 0 ≤ m.activation)
    (hF : m.normalizedFiberLength ≤ 1 ∨
      0 ≤ (m.activeFiberForce / m.forceVelocityMultiplier) / m.maxIsometricForce)
    (hpow : 0 ≤ pow (A m.control m.activation) 2) :
    ∃ st2, loopBody pow probe model mm st = .ok st2 ∧
      (m.normalizedFiberVelocity ≤ 0 → 0 ≤ st2.Sdot) ∧
      (0 < m.normalizedFiberVelocity → st2.Sdot ≤ 0) ∧
      (0 < m.normalizedFiberVelocity → 0 < probe.scaling_factor →
        0 < A m.control m.activation →
        (1 < m.normalizedFiberLength →
          0 < (m.activeFiberForce / m.forceVelocityMultiplier) / m.maxIsometricForce) →
        st2.Sdot < 0) ∧
      (m.normalizedFiberVelocity = 0 → st2.Sdot = 0) := by
  obtain ⟨-, hr0, hr1⟩ := checkValidMetabolicMuscle_bounds model mm m hc
  obtain ⟨st2, hb, -, hS, -⟩ := loopBody_ok pow probe model mm st m hc h1 h2
  rw [if_pos hs] at hS
  have hA := A_nonneg m.control m.activation he ha
  have hVs : 0 < Vmax_slowtwitch m.maxContractionVelocity mm.ratioSlowTwitchFibers :=
    div_pos hvmax (fiber_factor_pos _ hr1)
  have halpha : 0 < 100 / Vmax_slowtwitch m.maxContractionVelocity mm.ratioSlowTwitchFibers :=
    div_pos (by norm_num) hVs
  refine ⟨st2, hb, ?_, ?_, ?_, ?_⟩
  · intro hv
    obtain ⟨hslow, hfast⟩ := concentric_terms_nonpos m.maxContractionVelocity
      m.normalizedFiberVelocity mm.ratioSlowTwitchFibers hr0 hr1 hvmax hv
    rw [hS, specSdot_concentric pow probe mm m hs hv hslow hfast]
    have hX : 0 ≤ probe.scaling_factor * pow (A m.control m.activation) 2 *
        (-(tmp_slowTwitch m.maxContractionVelocity m.normalizedFiberVelocity
            mm.ratioSlowTwitchFibers +
          tmp_fastTwitch m.maxContractionVelocity m.normalizedFiberVelocity
            mm.ratioSlowTwitchFibers)) :=
      mul_nonneg (mul_nonneg hsf hpow) (by linarith)
    split_ifs with hl
    · rcases hF with hF | hF
      · exact absurd hF (not_le.2 hl)
      · exact mul_nonneg hX hF
    · exact hX
  · intro hv
    rw [hS, specSdot_eccentric pow probe mm m hs hv]
    have hU : -0.3 * (100 / Vmax_slowtwitch m.maxContractionVelocity
        mm.ratioSlowTwitchFibers) * m.normalizedFiberVelocity ≤ 0 := by
      have := mul_pos halpha hv
      linarith
    have hX : probe.scaling_factor * A m.control m.activation *
        (-0.3 * (100 / Vmax_slowtwitch m.maxContractionVelocity
          mm.ratioSlowTwitchFibers) * m.normalizedFiberVelocity) ≤ 0 :=
      mul_nonpos_of_nonneg_of_nonpos (mul_nonneg hsf hA) hU
    split_ifs with hl
    · rcases hF with hF | hF
      · exact absurd hF (not_le.2 hl)
      · exact mul_nonpos_of_nonpos_of_nonneg hX hF
    · exact hX
  · intro hv hsf2 hA2 hF2
    rw [hS, specSdot_eccentric pow probe mm m hs hv]
    have hU : -0.3 * (100 / Vmax_slowtwitch m.maxContractionVelocity
        mm.ratioSlowTwitchFibers) * m.normalizedFiberVelocity < 0 := by
      have := mul_pos halpha hv
      linarith
    have hX : probe.scaling_factor * A m.control m.activation *
        (-0.3 * (100 / Vmax_slowtwitch m.maxContractionVelocity
          mm.ratioSlowTwitchFibers) * m.normalizedFiberVelocity) < 0 :=
      mul_neg_of_pos_of_neg (mul_pos hsf2 hA2) hU
    split_ifs with hl
    · exact mul_neg_of_neg_of_pos hX (hF2 hl)
    · exact hX
  · intro hv
    have hv2 : m.normalizedFiberVelocity ≤ 0 := hv.le
    obtain ⟨hslow, hfast⟩ := concentric_terms_nonpos m.maxContractionVelocity
      m.normalizedFiberVelocity mm.ratioSlowTwitchFibers hr0 hr1 hvmax hv2
    rw [hS, specSdot_concentric pow probe mm m hs hv2 hslow hfast]
    simp [tmp_slowTwitch, tmp_fastTwitch, hv]

/-- C18 at the fixture (shortening, `Sdot` at least 0) and at the fixture muscle with a
normalized fiber velocity of 0.05 (lengthening, `Sdot` negative). -/
theorem C18_Sdot_sign_witness :
    (∃ st2, loopBody powStandIn (fixtureProbe "probe" "soleus" 1.51 1)
        (fixtureModel "soleus" 70) (fixtureParameter "soleus") (loopEntry []) = .ok st2 ∧
      0 ≤ st2.Sdot) ∧
    (∃ st2, loopBody powStandIn (fixtureProbe "probe" "soleus" 1.51 1)
        { muscles := [{ fixtureMuscle "soleus" with normalizedFiberVelocity := 0.05 }],
          systemMass := 70 }
        (fixtureParameter "soleus") (loopEntry []) = .ok st2 ∧
      st2.Sdot < 0) := by
  constructor
  · obtain ⟨st2, hb, hS, -⟩ := C18_Sdot_sign powStandIn
      (fixtureProbe "probe" "soleus" 1.51 1) (fixtureModel "soleus" 70)
      (fixtureParameter "soleus") (fixtureMuscle "soleus") (loopEntry [])
      (checkValidMetabolicMuscle_fixture "soleus" 70)
      (by norm_num [fixtureMuscle]) (by norm_num [fixtureMuscle]) rfl
      (by norm_num [fixtureMuscle]) (by norm_num [fixtureProbe])
      (by norm_num [fixtureMuscle]) (by norm_num [fixtureMuscle])
      (Or.inl (by norm_num [fixtureMuscle]))
      (by norm_num [fixtureMuscle, A, powStandIn])
    exact ⟨st2, hb, hS (by norm_num [fixtureMuscle])⟩
  · obtain ⟨st2, hb, -, -, hS, -⟩ := C18_Sdot_sign powStandIn
      (fixtureProbe "probe" "soleus" 1.51 1)
      { muscles := [{ fixtureMuscle "soleus" with normalizedFiberVelocity := 0.05 }],
        systemMass := 70 }
      (fixtureParameter "soleus")
      { fixtureMuscle "soleus" with normalizedFiberVelocity := 0.05 } (loopEntry [])
      (checkValidMetabolicMuscle_single
        { fixtureMuscle "soleus" with normalizedFiberVelocity := 0.05 } 0.5 0.5 70
        (by norm_num) (by norm_num) (by norm_num))
      (by norm_num [fixtureMuscle]) (by norm_num [fixtureMuscle]) rfl
      (by norm_num [fixtureMuscle]) (by norm_num [fixtureProbe])
      (by norm_num [fixtureMuscle]) (by norm_num [fixtureMuscle])
      (Or.inl (by norm_num [fixtureMuscle]))
      (by norm_num [fixtureMuscle, A, powStandIn])
    exact ⟨st2, hb, hS (by norm_num) (by norm_num [fixtureProbe])
      (by norm_num [fixtureMuscle, A]) (by norm_num [fixtureMuscle])⟩

/-- C20, at a failing input: the fixture muscle with a maximum contraction velocity of 0.
The parameter passes validation, the muscle passes both zero checks and the iteration
completes without an exception, yet the divisors `Vmax_slowtwitch` and `Vmax_fasttwitch`
are 0. In general, after validation and the two zero checks the force-velocity
multiplier, the maximum isometric force, `1 + 1.5*(1 - r)` and the muscle mass are
nonzero, while `Vmax_slowtwitch` and `Vmax_fasttwitch` are nonzero exactly when the
maximum contraction velocity is, which no check covers. -/
theorem C20_Vmax_divisor_unchecked :
    (checkValidMetabolicMuscle
        { muscles := [{ fixtureMuscle "soleus" with maxContractionVelocity := 0 }],
          systemMass := 70 }
        (fixtureParameter "soleus") =
          .ok { fixtureMuscle "soleus" with maxContractionVelocity := 0 } ∧
      (fixtureMuscle "soleus").maxIsometricForce ≠ 0 ∧
      (fixtureMuscle "soleus").forceVelocityMultiplier ≠ 0) ∧
    (∃ st2, loopBody powStandIn (fixtureProbe "probe" "soleus" 1.51 1)
        { muscles := [{ fixtureMuscle "soleus" with maxContractionVelocity := 0 }],
          systemMass := 70 }
        (fixtureParameter "soleus") (loopEntry []) = .ok st2) ∧
    Vmax_slowtwitch 0 (fixtureParameter "soleus").ratioSlowTwitchFibers = 0 ∧
    Vmax_fasttwitch 0 (fixtureParameter "soleus").ratioSlowTwitchFibers = 0 ∧
    (∀ (model : Model) (mm : MetabolicMuscleParameter) (m : Muscle),
      checkValidMetabolicMuscle model mm = .ok m → m.maxIsometricForce ≠ 0 →
      m.forceVelocityMultiplier ≠ 0 →
      m.forceVelocityMultiplier ≠ 0 ∧ m.maxIsometricForce ≠ 0 ∧
      (1 + 1.5 * (1 - mm.ratioSlowTwitchFibers) : ℚ) ≠ 0 ∧ mm.muscleMass ≠ 0 ∧
      (Vmax_slowtwitch m.maxContractionVelocity mm.ratioSlowTwitchFibers ≠ 0 ↔
        m.maxContractionVelocity ≠ 0) ∧
      (Vmax_fasttwitch m.maxContractionVelocity mm.ratioSlowTwitchFibers ≠ 0 ↔
        m.maxContractionVelocity ≠ 0)) := by
  have hc := checkValidMetabolicMuscle_single
    { fixtureMuscle "soleus" with maxContractionVelocity := 0 } 0.5 0.5 70
    (by norm_num) (by norm_num) (by norm_num)
  have hm1 : (fixtureMuscle "soleus").maxIsometricForce ≠ 0 := by norm_num [fixtureMuscle]
  have hm2 : (fixtureMuscle "soleus").forceVelocityMultiplier ≠ 0 := by
    norm_num [fixtureMuscle]
  refine ⟨⟨hc, hm1, hm2⟩, ?_, by simp [Vmax_slowtwitch],
    by simp [Vmax_fasttwitch, Vmax_slowtwitch], ?_⟩
  · obtain ⟨st2, hb, -⟩ := loopBody_ok powStandIn (fixtureProbe "probe" "soleus" 1.51 1)
      { muscles := [{ fixtureMuscle "soleus" with maxContractionVelocity := 0 }],
        systemMass := 70 }
      (fixtureParameter "soleus") (loopEntry [])
      { fixtureMuscle "soleus" with maxContractionVelocity := 0 } hc hm1 hm2
    exact ⟨st2, hb⟩
  · intro model mm m hcm h1 h2
    obtain ⟨hmass, -, hr1⟩ := checkValidMetabolicMuscle_bounds model mm m hcm
    have hk : (1 + 1.5 * (1 - mm.ratioSlowTwitchFibers) : ℚ) ≠ 0 :=
      (fiber_factor_pos _ hr1).ne'
    refine ⟨h2, h1, hk, hmass.ne', ?_, ?_⟩
    · unfold Vmax_slowtwitch
      simp [div_eq_zero_iff, hk]
    · unfold Vmax_fasttwitch Vmax_slowtwitch
      have h25 : (2.5 : ℚ) ≠ 0 := by norm_num
      simp [div_eq_zero_iff, hk, h25]

end OpenSim
